import Mathlib

/-!
Verification of the KABUL card print generator (src/main.py).

The source is a deterministic layout pipeline: configuration constants,
bilingual content records, and a sequence of canvas drawing calls
(reportlab).  We embed it shallowly: physical lengths become exact
rationals (reportlab's `mm` unit is 72/25.4 points), every drawing
call becomes a constructor of an `Op` datatype, and every drawing
function of the source becomes a pure Lean function producing the
ordered list of canvas operations that the Python function would issue.
The canvas's mutable graphics state (fill/stroke color, font, clip,
save/restore stack) is modelled by an explicit state machine folded
over the operation list.  Text-width measurement (`canvas.stringWidth`)
is an external collaborator and is threaded through as a function
parameter.
-/

namespace Kabul

/-- One millimetre in drawing points, exactly as reportlab defines it:
`mm = 72 / 25.4`. -/
def mm : ℚ := 360 / 127

/-- A4 page width in points (`210*mm`). -/
def PAGE_WIDTH : ℚ := 210 * mm

/-- A4 page height in points (`297*mm`). -/
def PAGE_HEIGHT : ℚ := 297 * mm

/-- The editable configuration constants of the source
(`CARD_WIDTH`, `CARD_HEIGHT`, `BLEED`, `CROP_LENGTH`, `CROP_OFFSET`,
`CROP_LINE_WIDTH`, `CARD_SPACING`, `MARGIN`). -/
structure Config where
  cardWidth : ℚ
  cardHeight : ℚ
  bleed : ℚ
  cropLength : ℚ
  cropOffset : ℚ
  cropLineWidth : ℚ
  cardSpacing : ℚ
  margin : ℚ
deriving DecidableEq

/-- The values assigned in the source's configuration block:
63×88 mm card, 3 mm bleed, 5 mm crop length, 3 mm crop offset,
0.25 pt crop line width, 8 mm spacing, 3.5 mm margin. -/
def defaultConfig : Config :=
  { cardWidth := 63 * mm
    cardHeight := 88 * mm
    bleed := 3 * mm
    cropLength := 5 * mm
    cropOffset := 3 * mm
    cropLineWidth := 1 / 4
    cardSpacing := 8 * mm
    margin := 7 / 2 * mm }

/-- Derived constant `CARD_WIDTH_BLEED = CARD_WIDTH + 2 * BLEED`. -/
def Config.cardWidthBleed (cfg : Config) : ℚ := cfg.cardWidth + 2 * cfg.bleed

/-- Derived constant `CARD_HEIGHT_BLEED = CARD_HEIGHT + 2 * BLEED`. -/
def Config.cardHeightBleed (cfg : Config) : ℚ := cfg.cardHeight + 2 * cfg.bleed

namespace Colors

def bg : Nat := 0xFFFFFF
def text : Nat := 0x1A1A1A
def accent : Nat := 0xC41E3A
def heading : Nat := 0x2D2D2D
def red : Nat := 0xC41E3A
def black : Nat := 0x1A1A1A
def shapeLight : Nat := 0xF7F7F7
def shapeMedium : Nat := 0xEEEEEE
def shapeAccent : Nat := 0xFEF5F6
def backBase : Nat := 0xC41E3A
def backWave1 : Nat := 0xA01830
def backWave2 : Nat := 0x8A1428
def backCircle : Nat := 0xD42A4A
def cropMark : Nat := 0x000000
def gray : Nat := 0x999999

end Colors

namespace Fonts

def title : String := "CardFont-Bold"
def heading : String := "CardFont-Bold"
def body : String := "CardFont"
def titleSize : ℚ := 13
def subtitleSize : ℚ := 15 / 2
def headingSize : ℚ := 7
def bodySize : ℚ := 31 / 5
def numberSize : ℚ := 6

end Fonts

/-! ### Python string operations used by the source -/

/-- Python `needle in s` (substring containment) on character lists. -/
def hasSub (needle : List Char) : List Char → Bool
  | [] => needle.isEmpty
  | c :: t => needle.isPrefixOf (c :: t) || hasSub needle t

/-- The characters of `s` strictly before the first occurrence of
`needle`, i.e. Python `s.split(needle)[0]` (the whole of `s` when the
needle does not occur). -/
def takeBefore (needle : List Char) : List Char → List Char
  | [] => []
  | c :: t => if needle.isPrefixOf (c :: t) then [] else c :: takeBefore needle t

/-- Python `needle in s` on strings. -/
def containsSub (needle s : String) : Bool := hasSub needle.data s.data

/-- Python `s.split(needle)[0]` on strings. -/
def takeBeforeStr (needle s : String) : String :=
  String.mk (takeBefore needle.data s.data)

/-- Python `s.startswith(p)`. -/
def pyStartsWith (p s : String) : Bool := p.data.isPrefixOf s.data

/-- Python `s.strip()`: remove leading and trailing whitespace. -/
def stripList (s : List Char) : List Char :=
  ((s.dropWhile Char.isWhitespace).reverse.dropWhile Char.isWhitespace).reverse

/-- Python `s.strip()` on strings. -/
def pyStrip (s : String) : String := String.mk (stripList s.data)

/-- Python `s[n:]`. -/
def dropChars (n : Nat) (s : String) : String := String.mk (s.data.drop n)

/-! ### The canvas operation language

Each reportlab canvas call issued by the source becomes one
constructor.  Paths (`beginPath`/`moveTo`/`curveTo`/`lineTo`/`close`)
are recorded as data attached to the `drawPathFill` operation that
renders them; `clipPath` applied to a rectangle path is `clipRect`. -/

inductive PathSeg
  | moveTo (x y : ℚ)
  | curveTo (x1 y1 x2 y2 x3 y3 : ℚ)
  | lineTo (x y : ℚ)
  | close
deriving DecidableEq

inductive Op
  | saveState
  | restoreState
  | setFillColor (c : Nat)
  | setStrokeColor (c : Nat)
  | setLineWidth (w : ℚ)
  | setFont (name : String) (size : ℚ)
  | line (x1 y1 x2 y2 : ℚ)
  | rect (x y w h : ℚ) (fill stroke : Bool)
  | circle (cx cy r : ℚ)
  | drawPathFill (segs : List PathSeg)
  | clipRect (x y w h : ℚ)
  | drawString (x y : ℚ) (s : String)
  | drawCentredString (x y : ℚ) (s : String)
  | drawRightString (x y : ℚ) (s : String)
  | drawQR (x y size : ℚ) (url : String)
  | showPage
deriving DecidableEq

/-- The type of the external text-measurement collaborator
(`canvas.stringWidth text fontName fontSize`). -/
def StringWidth : Type := String → String → ℚ → ℚ

/-- A trivial concrete measurement function used for witnesses. -/
def swZero : StringWidth := fun _ _ _ => 0

/-- A concrete measurement function: width = number of characters. -/
def swLen : StringWidth := fun s _ _ => (s.length : ℚ)

/-! ### Crop marks (`draw_crop_marks`) -/

/-- `draw_crop_marks(c, x, y, width, height)`: computes the four cut
lines inside the bleed and draws two short marks at each corner. -/
def drawCropMarks (cfg : Config) (x y width height : ℚ) : List Op :=
  let cutLeft := x + cfg.bleed
  let cutRight := x + width - cfg.bleed
  let cutBottom := y + cfg.bleed
  let cutTop := y + height - cfg.bleed
  [Op.saveState,
   Op.setStrokeColor Colors.cropMark,
   Op.setLineWidth cfg.cropLineWidth,
   -- top-left corner
   Op.line (cutLeft - cfg.cropOffset - cfg.cropLength) cutTop
     (cutLeft - cfg.cropOffset) cutTop,
   Op.line cutLeft (cutTop + cfg.cropOffset)
     cutLeft (cutTop + cfg.cropOffset + cfg.cropLength),
   -- top-right corner
   Op.line (cutRight + cfg.cropOffset) cutTop
     (cutRight + cfg.cropOffset + cfg.cropLength) cutTop,
   Op.line cutRight (cutTop + cfg.cropOffset)
     cutRight (cutTop + cfg.cropOffset + cfg.cropLength),
   -- bottom-left corner
   Op.line (cutLeft - cfg.cropOffset - cfg.cropLength) cutBottom
     (cutLeft - cfg.cropOffset) cutBottom,
   Op.line cutLeft (cutBottom - cfg.cropOffset - cfg.cropLength)
     cutLeft (cutBottom - cfg.cropOffset),
   -- bottom-right corner
   Op.line (cutRight + cfg.cropOffset) cutBottom
     (cutRight + cfg.cropOffset + cfg.cropLength) cutBottom,
   Op.line cutRight (cutBottom - cfg.cropOffset - cfg.cropLength)
     cutRight (cutBottom - cfg.cropOffset),
   Op.restoreState]

/-! ### Backgrounds -/

/-- `draw_front_background(c, x, y)`: white base, two gray waves, pink
accent circle, red accent bar at the top.  `x, y` is the cut-line
(trim) position of the card. -/
def drawFrontBackground (cfg : Config) (x y : ℚ) : List Op :=
  let drawX := x - cfg.bleed
  let drawY := y - cfg.bleed
  let drawWidth := cfg.cardWidth + 2 * cfg.bleed
  let drawHeight := cfg.cardHeight + 2 * cfg.bleed
  [Op.setFillColor Colors.bg,
   Op.rect drawX drawY drawWidth drawHeight true false,
   Op.saveState,
   Op.setFillColor Colors.shapeLight,
   Op.drawPathFill
     [PathSeg.moveTo drawX (y + 25 * mm),
      PathSeg.curveTo (x + 20 * mm) (y + 35 * mm) (x + 35 * mm) (y + 50 * mm)
        (drawX + drawWidth) (y + 60 * mm),
      PathSeg.lineTo (drawX + drawWidth) drawY,
      PathSeg.lineTo drawX drawY,
      PathSeg.close],
   Op.restoreState,
   Op.saveState,
   Op.setFillColor Colors.shapeMedium,
   Op.drawPathFill
     [PathSeg.moveTo drawX (y + 15 * mm),
      PathSeg.curveTo (x + 25 * mm) (y + 22 * mm) (x + 40 * mm) (y + 35 * mm)
        (drawX + drawWidth) (y + 45 * mm),
      PathSeg.lineTo (drawX + drawWidth) drawY,
      PathSeg.lineTo drawX drawY,
      PathSeg.close],
   Op.restoreState,
   Op.saveState,
   Op.setFillColor Colors.shapeAccent,
   Op.circle (x + 50 * mm) (y + 20 * mm) (12 * mm),
   Op.restoreState,
   Op.setFillColor Colors.accent,
   Op.rect drawX (y + cfg.cardHeight - 7 / 2 * mm) drawWidth
     (7 / 2 * mm + cfg.bleed) true false]

/-- `draw_back_background(c, x, y, content)`: red base, two darker
waves (each fill color set inside its saved scope), accent circle,
centred KABUL title and subtitle. -/
def drawBackBackground (cfg : Config) (x y : ℚ) (backTitle backSubtitle : String) :
    List Op :=
  let drawX := x - cfg.bleed
  let drawY := y - cfg.bleed
  let drawWidth := cfg.cardWidth + 2 * cfg.bleed
  let drawHeight := cfg.cardHeight + 2 * cfg.bleed
  [Op.setFillColor Colors.backBase,
   Op.rect drawX drawY drawWidth drawHeight true false,
   Op.saveState,
   Op.setFillColor Colors.backWave1,
   Op.drawPathFill
     [PathSeg.moveTo drawX (y + 30 * mm),
      PathSeg.curveTo (x + 20 * mm) (y + 40 * mm) (x + 40 * mm) (y + 55 * mm)
        (drawX + drawWidth) (y + 65 * mm),
      PathSeg.lineTo (drawX + drawWidth) drawY,
      PathSeg.lineTo drawX drawY,
      PathSeg.close],
   Op.restoreState,
   Op.saveState,
   Op.setFillColor Colors.backWave2,
   Op.drawPathFill
     [PathSeg.moveTo drawX (y + 18 * mm),
      PathSeg.curveTo (x + 25 * mm) (y + 25 * mm) (x + 45 * mm) (y + 38 * mm)
        (drawX + drawWidth) (y + 48 * mm),
      PathSeg.lineTo (drawX + drawWidth) drawY,
      PathSeg.lineTo drawX drawY,
      PathSeg.close],
   Op.restoreState,
   Op.saveState,
   Op.setFillColor Colors.backCircle,
   Op.circle (x + 50 * mm) (y + 22 * mm) (10 * mm),
   Op.restoreState,
   Op.setFillColor Colors.bg,
   Op.setFont Fonts.title 18,
   Op.drawCentredString (x + cfg.cardWidth / 2) (y + cfg.cardHeight / 2 + 5 * mm)
     backTitle,
   Op.setFont Fonts.body 8,
   Op.drawCentredString (x + cfg.cardWidth / 2) (y + cfg.cardHeight / 2 - 5 * mm)
     backSubtitle]

/-- `draw_title_card_background(c, x, y, content)`: same recipe as the
decorative back but with the title-card strings and larger sizes. -/
def drawTitleCardBackground (cfg : Config) (x y : ℚ) (cardTitle cardSubtitle : String) :
    List Op :=
  let drawX := x - cfg.bleed
  let drawY := y - cfg.bleed
  let drawWidth := cfg.cardWidth + 2 * cfg.bleed
  let drawHeight := cfg.cardHeight + 2 * cfg.bleed
  [Op.setFillColor Colors.backBase,
   Op.rect drawX drawY drawWidth drawHeight true false,
   Op.saveState,
   Op.setFillColor Colors.backWave1,
   Op.drawPathFill
     [PathSeg.moveTo drawX (y + 30 * mm),
      PathSeg.curveTo (x + 20 * mm) (y + 40 * mm) (x + 40 * mm) (y + 55 * mm)
        (drawX + drawWidth) (y + 65 * mm),
      PathSeg.lineTo (drawX + drawWidth) drawY,
      PathSeg.lineTo drawX drawY,
      PathSeg.close],
   Op.restoreState,
   Op.saveState,
   Op.setFillColor Colors.backWave2,
   Op.drawPathFill
     [PathSeg.moveTo drawX (y + 18 * mm),
      PathSeg.curveTo (x + 25 * mm) (y + 25 * mm) (x + 45 * mm) (y + 38 * mm)
        (drawX + drawWidth) (y + 48 * mm),
      PathSeg.lineTo (drawX + drawWidth) drawY,
      PathSeg.lineTo drawX drawY,
      PathSeg.close],
   Op.restoreState,
   Op.saveState,
   Op.setFillColor Colors.backCircle,
   Op.circle (x + 50 * mm) (y + 22 * mm) (10 * mm),
   Op.restoreState,
   Op.setFillColor Colors.bg,
   Op.setFont Fonts.title 20,
   Op.drawCentredString (x + cfg.cardWidth / 2) (y + cfg.cardHeight / 2 + 8 * mm)
     cardTitle,
   Op.setFont Fonts.body 9,
   Op.drawCentredString (x + cfg.cardWidth / 2) (y + cfg.cardHeight / 2 - 4 * mm)
     cardSubtitle]

/-- `draw_title_card(c, x, y, content)`: clipped background plus crop
marks. -/
def drawTitleCard (cfg : Config) (x y : ℚ) (cardTitle cardSubtitle : String) :
    List Op :=
  [Op.saveState,
   Op.clipRect (x - cfg.bleed) (y - cfg.bleed) cfg.cardWidthBleed cfg.cardHeightBleed]
  ++ drawTitleCardBackground cfg x y cardTitle cardSubtitle
  ++ [Op.restoreState]
  ++ drawCropMarks cfg (x - cfg.bleed) (y - cfg.bleed) cfg.cardWidthBleed
       cfg.cardHeightBleed

/-- The description loop of `draw_title_card_back`: blank input lines
advance the cursor by `2*mm` without drawing, other lines are drawn
centred and advance it by `3.2*mm`. -/
def descLoop (cx : ℚ) (y : ℚ) : List String → List Op
  | [] => []
  | l :: ls =>
    if l = "" then descLoop cx (y - 2 * mm) ls
    else Op.drawCentredString cx y l :: descLoop cx (y - 16 / 5 * mm) ls

/-- `draw_title_card_back(c, x, y, content)`: white base, accent bar,
about-title, game description, QR code and URL caption. -/
def drawTitleCardBack (cfg : Config) (x y : ℚ) (aboutTitle : String)
    (gameDescription : List String) (githubUrl : String) : List Op :=
  let drawX := x - cfg.bleed
  let drawY := y - cfg.bleed
  let drawWidth := cfg.cardWidth + 2 * cfg.bleed
  let drawHeight := cfg.cardHeight + 2 * cfg.bleed
  let qrSize := 18 * mm
  [Op.setFillColor Colors.bg,
   Op.rect drawX drawY drawWidth drawHeight true false,
   Op.setFillColor Colors.accent,
   Op.rect drawX (y + cfg.cardHeight - 7 / 2 * mm) drawWidth (7 / 2 * mm + cfg.bleed)
     true false,
   Op.setFont Fonts.title 11,
   Op.setFillColor Colors.text,
   Op.drawCentredString (x + cfg.cardWidth / 2) (y + cfg.cardHeight - 12 * mm)
     aboutTitle,
   Op.setFont Fonts.body 6,
   Op.setFillColor Colors.text]
  ++ descLoop (x + cfg.cardWidth / 2) (y + cfg.cardHeight - 20 * mm) gameDescription
  ++ [Op.drawQR (x + (cfg.cardWidth - qrSize) / 2) (y + 12 * mm) qrSize githubUrl,
      Op.setFont Fonts.body (9 / 2),
      Op.setFillColor Colors.heading,
      Op.drawCentredString (x + cfg.cardWidth / 2) (y + 8 * mm)
        "github.com/hazelwalker/kabul-instructions"]

/-- `draw_title_card_back_with_marks`: clipped back face plus crop
marks. -/
def drawTitleCardBackWithMarks (cfg : Config) (x y : ℚ) (aboutTitle : String)
    (gameDescription : List String) (githubUrl : String) : List Op :=
  [Op.saveState,
   Op.clipRect (x - cfg.bleed) (y - cfg.bleed) cfg.cardWidthBleed cfg.cardHeightBleed]
  ++ drawTitleCardBack cfg x y aboutTitle gameDescription githubUrl
  ++ [Op.restoreState]
  ++ drawCropMarks cfg (x - cfg.bleed) (y - cfg.bleed) cfg.cardWidthBleed
       cfg.cardHeightBleed

/-! ### Card content -/

/-- `draw_title(c, x, y, title, number)`: KABUL main title, card
subtitle, card number bottom right. -/
def drawTitle (cfg : Config) (x y : ℚ) (title number : String) : List Op :=
  [Op.setFont Fonts.title Fonts.titleSize,
   Op.setFillColor Colors.text,
   Op.drawCentredString (x + cfg.cardWidth / 2) (y + cfg.cardHeight - 11 * mm) "KABUL",
   Op.setFont Fonts.body Fonts.subtitleSize,
   Op.setFillColor Colors.heading,
   Op.drawCentredString (x + cfg.cardWidth / 2) (y + cfg.cardHeight - 33 / 2 * mm)
     title,
   Op.setFont Fonts.body Fonts.numberSize,
   Op.setFillColor Colors.accent,
   Op.drawRightString (x + cfg.cardWidth - cfg.margin - 1 / 2 * mm)
     (y + cfg.margin + 1 * mm) number]

/-- One row of the values table:
`(label, value, action, has_red)` as in `card_1_values`. -/
abbrev ValueRow : Type := String × String × Option String × Bool

/-- The label-drawing part of a values-table row: detect an embedded
`♠♣` or `♥♦` glyph pair; draw the text before it in the default color
and the pair in its mapped color at the measured prefix width,
otherwise draw the whole label. -/
def labelOps (sw : StringWidth) (colLabel y : ℚ) (label : String) : List Op :=
  if containsSub "♠♣" label then
    let partsBefore := takeBeforeStr "♠♣" label
    [Op.setFillColor Colors.text,
     Op.drawString colLabel y partsBefore,
     Op.setFillColor Colors.black,
     Op.drawString (colLabel + sw partsBefore Fonts.body Fonts.bodySize) y "♠♣"]
  else if containsSub "♥♦" label then
    let partsBefore := takeBeforeStr "♥♦" label
    [Op.setFillColor Colors.text,
     Op.drawString colLabel y partsBefore,
     Op.setFillColor Colors.red,
     Op.drawString (colLabel + sw partsBefore Fonts.body Fonts.bodySize) y "♥♦"]
  else
    [Op.setFillColor Colors.text, Op.drawString colLabel y label]

/-- The loop body of `draw_values_table` for one row at cursor `y`:
label part, aligned `=` and value, optional arrow-prefixed action one
line lower at the value column. -/
def valueRowOps (sw : StringWidth) (colLabel colEquals colValue y : ℚ)
    (row : ValueRow) : List Op :=
  labelOps sw colLabel y row.1
  ++ [Op.setFillColor Colors.text,
      Op.drawString colEquals y "=",
      Op.drawString colValue y row.2.1]
  ++ (match row.2.2.1 with
      | some action =>
        [Op.setFillColor Colors.heading,
         Op.drawString colValue (y - 14 / 5 * mm) ("→ " ++ action),
         Op.setFillColor Colors.text]
      | none => [])

/-- Cursor advance of one values-table row: `2.8*mm` extra when an
action line was drawn, plus `3.2*mm` for every row. -/
def rowAdvance (row : ValueRow) : ℚ :=
  (match row.2.2.1 with
   | some _ => 14 / 5 * mm
   | none => 0) + 16 / 5 * mm

/-- The row loop of `draw_values_table`. -/
def valuesLoop (sw : StringWidth) (colLabel colEquals colValue : ℚ) (y : ℚ) :
    List ValueRow → List Op
  | [] => []
  | r :: rs =>
    valueRowOps sw colLabel colEquals colValue y r
    ++ valuesLoop sw colLabel colEquals colValue (y - rowAdvance r) rs

/-- Cursor position after the row loop. -/
def valuesEndY (y : ℚ) : List ValueRow → ℚ
  | [] => y
  | r :: rs => valuesEndY (y - rowAdvance r) rs

/-- The footer loop of `draw_values_table`: heading in heading font and
color, text in body font immediately after it, `3.5*mm` per line. -/
def footerLoop (sw : StringWidth) (colLabel : ℚ) (y : ℚ) :
    List (String × String) → List Op
  | [] => []
  | f :: fs =>
    [Op.setFont Fonts.heading Fonts.headingSize,
     Op.setFillColor Colors.heading,
     Op.drawString colLabel y f.1,
     Op.setFont Fonts.body Fonts.bodySize,
     Op.setFillColor Colors.text,
     Op.drawString (colLabel + sw (f.1 ++ "  ") Fonts.heading Fonts.headingSize) y
       f.2]
    ++ footerLoop sw colLabel (y - 7 / 2 * mm) fs

/-- `draw_values_table(c, x, y, card_data)`. -/
def drawValuesTable (cfg : Config) (sw : StringWidth) (x y : ℚ)
    (values : List ValueRow) (footers : List (String × String)) : List Op :=
  let contentY := y + cfg.cardHeight - 21 * mm
  let colLabel := x + cfg.margin + 1 * mm
  let colEquals := x + 24 * mm
  let colValue := x + 27 * mm
  Op.setFont Fonts.body Fonts.bodySize
  :: valuesLoop sw colLabel colEquals colValue contentY values
  ++ footerLoop sw colLabel (valuesEndY contentY values - 3 / 2 * mm) footers

/-- The loop body of `draw_sections` for one content line at cursor
`y`: optional continuation indent (stripping the line), arrow lines in
accent color with the remainder offset by `3*mm`, otherwise the whole
line at the indent. -/
def sectionLineOps (baseX y : ℚ) (line : String) : List Op :=
  let indent : ℚ := if pyStartsWith "   " line then 5 / 2 * mm else 0
  let l := if pyStartsWith "   " line then pyStrip line else line
  if pyStartsWith "→" l then
    [Op.setFillColor Colors.accent,
     Op.drawString (baseX + indent) y "→",
     Op.setFillColor Colors.text,
     Op.drawString (baseX + indent + 3 * mm) y (dropChars 2 l)]
  else
    [Op.drawString (baseX + indent) y l]

/-- The line loop of one section: `2.9*mm` cursor advance per line. -/
def sectionLinesLoop (baseX y : ℚ) : List String → List Op
  | [] => []
  | l :: ls => sectionLineOps baseX y l ++ sectionLinesLoop baseX (y - 29 / 10 * mm) ls

/-- One section of `draw_sections`: bold heading, `3.3*mm` advance,
then body font and default color, then the content lines. -/
def sectionOps (baseX y : ℚ) (sec : String × List String) : List Op :=
  [Op.setFont Fonts.heading Fonts.headingSize,
   Op.setFillColor Colors.heading,
   Op.drawString baseX y sec.1,
   Op.setFont Fonts.body Fonts.bodySize,
   Op.setFillColor Colors.text]
  ++ sectionLinesLoop baseX (y - 33 / 10 * mm) sec.2

/-- Cursor position after one section: heading advance, per-line
advances, and the `1.2*mm` inter-section gap. -/
def sectionEndY (y : ℚ) (sec : String × List String) : ℚ :=
  y - 33 / 10 * mm - 29 / 10 * mm * sec.2.length - 6 / 5 * mm

/-- The section loop of `draw_sections`. -/
def sectionsLoop (baseX y : ℚ) : List (String × List String) → List Op
  | [] => []
  | s :: ss => sectionOps baseX y s ++ sectionsLoop baseX (sectionEndY y s) ss

/-- `draw_sections(c, x, y, card_data)`. -/
def drawSections (cfg : Config) (x y : ℚ) (secs : List (String × List String)) :
    List Op :=
  sectionsLoop (x + cfg.margin + 1 * mm) (y + cfg.cardHeight - 21 * mm) secs

/-! ### Complete card faces -/

/-- The content variant of a card (`"type"` tag of the source dicts). -/
inductive CardBlock
  | valuesTable (values : List ValueRow) (footers : List (String × String))
  | sections (secs : List (String × List String))
deriving DecidableEq

/-- One card's renderable content (`card_N` dict). -/
structure CardData where
  title : String
  block : CardBlock
deriving DecidableEq

/-- `draw_card_front(c, x, y, card_data, number)`: clipped background,
title, content dispatched on the `type` tag, crop marks. -/
def drawCardFront (cfg : Config) (sw : StringWidth) (x y : ℚ) (card : CardData)
    (number : String) : List Op :=
  [Op.saveState,
   Op.clipRect (x - cfg.bleed) (y - cfg.bleed) cfg.cardWidthBleed cfg.cardHeightBleed]
  ++ drawFrontBackground cfg x y
  ++ [Op.restoreState]
  ++ drawTitle cfg x y card.title number
  ++ (match card.block with
      | CardBlock.valuesTable v f => drawValuesTable cfg sw x y v f
      | CardBlock.sections s => drawSections cfg x y s)
  ++ drawCropMarks cfg (x - cfg.bleed) (y - cfg.bleed) cfg.cardWidthBleed
       cfg.cardHeightBleed

/-- `draw_card_back(c, x, y, content)`: clipped decorative back plus
crop marks. -/
def drawCardBack (cfg : Config) (x y : ℚ) (backTitle backSubtitle : String) :
    List Op :=
  [Op.saveState,
   Op.clipRect (x - cfg.bleed) (y - cfg.bleed) cfg.cardWidthBleed cfg.cardHeightBleed]
  ++ drawBackBackground cfg x y backTitle backSubtitle
  ++ [Op.restoreState]
  ++ drawCropMarks cfg (x - cfg.bleed) (y - cfg.bleed) cfg.cardWidthBleed
       cfg.cardHeightBleed

/-! ### Page layout -/

/-- `calculate_4card_positions()`: front positions in row-major order
from the top left, and the horizontally mirrored back positions. -/
def calculate4cardPositions (cfg : Config) :
    List (ℚ × ℚ) × List (ℚ × ℚ) :=
  let totalWidth := 2 * cfg.cardWidthBleed + cfg.cardSpacing
  let totalHeight := 2 * cfg.cardHeightBleed + cfg.cardSpacing
  let startX := (PAGE_WIDTH - totalWidth) / 2 + cfg.bleed
  let startY := (PAGE_HEIGHT - totalHeight) / 2 + cfg.bleed
  ([(startX, startY + cfg.cardHeightBleed + cfg.cardSpacing),
    (startX + cfg.cardWidthBleed + cfg.cardSpacing,
      startY + cfg.cardHeightBleed + cfg.cardSpacing),
    (startX, startY),
    (startX + cfg.cardWidthBleed + cfg.cardSpacing, startY)],
   [(startX + cfg.cardWidthBleed + cfg.cardSpacing,
      startY + cfg.cardHeightBleed + cfg.cardSpacing),
    (startX, startY + cfg.cardHeightBleed + cfg.cardSpacing),
    (startX + cfg.cardWidthBleed + cfg.cardSpacing, startY),
    (startX, startY)])

/-- `calculate_2card_positions()`: two cards side by side, and the
swapped back positions. -/
def calculate2cardPositions (cfg : Config) :
    List (ℚ × ℚ) × List (ℚ × ℚ) :=
  let totalWidth := 2 * cfg.cardWidthBleed + cfg.cardSpacing
  let startX := (PAGE_WIDTH - totalWidth) / 2 + cfg.bleed
  let startY := (PAGE_HEIGHT - cfg.cardHeightBleed) / 2 + cfg.bleed
  ([(startX, startY),
    (startX + cfg.cardWidthBleed + cfg.cardSpacing, startY)],
   [(startX + cfg.cardWidthBleed + cfg.cardSpacing, startY),
    (startX, startY)])

/-- Python list indexing `ps[i]` (the generators only index in range). -/
def posAt (ps : List (ℚ × ℚ)) (i : Nat) : ℚ × ℚ := ps.getD i (0, 0)

/-! ### Content model (`get_content()`) -/

/-- The fields of the active-language content record that the three
generators consume. -/
structure Content where
  card1 : CardData
  card2 : CardData
  card3 : CardData
  card4 : CardData
  backTitle : String
  backSubtitle : String
  titleCardTitle : String
  titleCardSubtitle : String
  githubUrl : String
  gameDescription : List String
  aboutTitle : String
  info4front : String
  info4back : String
  info4edition : String
  info2front : String
  info2back : String
  info2edition : String
  infoTitleFront : String
  infoTitleBack : String
  duplexHint : String
deriving DecidableEq

/-- `CONTENT["de"]["card_1_values"]`. -/
def deCard1Values : List ValueRow :=
  [("Joker", "-1 Punkt", none, false),
   ("Ass", "1 Punkt", none, false),
   ("2–6", "Kartenwert", none, false),
   ("7, 8", "Kartenwert", some "Eigene ansehen", false),
   ("9, 10", "Kartenwert", some "Fremde ansehen", false),
   ("Bube, Dame", "10 Punkte", some "Tauschen", false),
   ("König ♠♣", "10 Punkte", some "2× Ansehen & Tauschen?", false),
   ("König ♥♦", "0 Punkte", none, true)]

/-- `CONTENT["de"]["card_1"]` with its values merged in, as
`get_content()` builds it. -/
def deCard1 : CardData :=
  { title := "Kartenwerte & Aktionen"
    block := CardBlock.valuesTable deCard1Values
      [("Ziel", "Niedrigste Gesamtpunktzahl"),
       ("Ende", "Erster Spieler > 100 Punkte")] }

/-- `CONTENT["de"]["card_2"]`. -/
def deCard2 : CardData :=
  { title := "Spielablauf"
    block := CardBlock.sections
      [("Setup",
        ["4 Karten verdeckt im Quadrat",
         "Untere 2 Karten einmal ansehen",
         "Erste Karte vom Stapel aufdecken"]),
       ("Spielzug",
        ["1. Karte ziehen von Stapel o. Ablage",
         "2. Wählen: Ablegen, Ersetzen",
         "   oder Kartenaktion ausführen"]),
       ("Abwerfen",
        ["Gleiche Karte wie auf der Ablage?",
         "→ Eigene/fremde Karte draufschmeißen!",
         "Schnellster gewinnt · 1× pro Abwerfen"]),
       ("Kabul",
        ["Bei ≤4 Punkten: Kabul rufen",
         "→ Löst letzte Runde aus"])] }

/-- `CONTENT["de"]["card_3"]`. -/
def deCard3 : CardData :=
  { title := "Detailregeln"
    block := CardBlock.sections
      [("Abwerfen-Details",
        ["Auch fremde Karten abwerfbar",
         "Eigene Karte als Ersatz geben",
         "Schnellster gewinnt",
         "Berührt Ablage = gültig",
         "Zählt nicht als Spielzug"]),
       ("Karte ersetzen",
        ["Sofort umdrehen & zeigen",
         "Nicht erst anschauen!"]),
       ("Sonderfälle",
        ["Stapel leer → Ablage mischen",
         "Keine Karten mehr → Kabul (Pflicht)"])] }

/-- `CONTENT["de"]["card_4"]`. -/
def deCard4 : CardData :=
  { title := "Strafen & Regeln"
    block := CardBlock.sections
      [("Strafen (+1 Karte)",
        ["Setup: Karten 2× angesehen",
         "Falsches Abwerfen"]),
       ("Kabul-Strafe",
        ["Nicht niedrigste Anzahl oder >4 Punkte?",
         "→ Kartenzahl verdoppelt",
         "oder",
         "→ Nächste Runde: 5 Karten"]),
       ("Wichtig",
        ["Kabul erst ab ≤4 Punkte rufbar",
         "Am Ende: Bestätigung nötig",
         "Nach Abwerfen: Eigener Zug möglich",
         "Kartenaktion = Ablegen + Aktion"]),
       ("Gleichstand",
        ["Der, der Kabul gerufen hat gewinnt"])] }

/-- `get_content()` for the source's active `LANGUAGE = "de"`. -/
def deContent : Content :=
  { card1 := deCard1
    card2 := deCard2
    card3 := deCard3
    card4 := deCard4
    backTitle := "KABUL"
    backSubtitle := "Kartenspiel"
    titleCardTitle := "KABUL"
    titleCardSubtitle := "Spielregeln"
    githubUrl := "https://github.com/hazelwalker/kabul-instructions"
    gameDescription :=
      ["KABUL ist ein schnelles Kartenspiel für 2-6 Spieler,",
       "inspiriert von Cabo, Skyjo oder Golf. Ziel ist es, die",
       "niedrigste Punktzahl zu erreichen – aber Vorsicht:",
       "Du kennst nicht alle deine Karten!",
       "",
       "Merke dir deine Karten, tausche clever und rufe",
       "»Kabul!«, wenn du glaubst zu gewinnen.",
       "",
       "Spieldauer: ca. 15-20 Minuten"]
    aboutTitle := "Über das Spiel"
    info4front := "Vorderseiten"
    info4back := "Rückseiten"
    info4edition := "Regelkarten"
    info2front := "Vorderseiten: Kartenwerte | Detailregeln"
    info2back := "Rückseiten: Spielablauf | Strafen"
    info2edition := "Kompakt"
    infoTitleFront := "Vorderseite"
    infoTitleBack := "Rückseite"
    duplexHint := "↻ Duplex: Lange Kante spiegeln" }

/-! ### Edition generators -/

/-- `generate_4card_edition`: front page of the four rule cards, page
footer, page break, mirrored decorative backs, back-page footer
with the duplex hint. -/
def generate4cardEdition (cfg : Config) (sw : StringWidth) (content : Content) :
    List Op :=
  let frontPos := (calculate4cardPositions cfg).1
  let backPos := (calculate4cardPositions cfg).2
  let cards : List (CardData × String) :=
    [(content.card1, "1/4"), (content.card2, "2/4"),
     (content.card3, "3/4"), (content.card4, "4/4")]
  ((cards.zip frontPos).map fun cp =>
    drawCardFront cfg sw cp.2.1 cp.2.2 cp.1.1 cp.1.2).flatten
  ++ [Op.setFont Fonts.body 7,
      Op.setFillColor Colors.gray,
      Op.drawString (15 * mm) (10 * mm)
        ("KABUL " ++ content.info4edition ++ " | Page 1/2 | "
          ++ content.info4front ++ " | 63×88mm"),
      Op.showPage]
  ++ (backPos.map fun p =>
      drawCardBack cfg p.1 p.2 content.backTitle content.backSubtitle).flatten
  ++ [Op.setFont Fonts.body 7,
      Op.setFillColor Colors.gray,
      Op.drawString (15 * mm) (10 * mm)
        ("KABUL " ++ content.info4edition ++ " | Page 2/2 | "
          ++ content.info4back ++ " | 63×88mm"),
      Op.drawRightString (PAGE_WIDTH - 15 * mm) (10 * mm) content.duplexHint]

/-- `generate_2card_edition`: cards 1 and 3 on the front page, cards 2
and 4 (still rendered by `draw_card_front`) at the mirrored positions
of the back page. -/
def generate2cardEdition (cfg : Config) (sw : StringWidth) (content : Content) :
    List Op :=
  let frontPos := (calculate2cardPositions cfg).1
  let backPos := (calculate2cardPositions cfg).2
  drawCardFront cfg sw (posAt frontPos 0).1 (posAt frontPos 0).2 content.card1 "1a"
  ++ drawCardFront cfg sw (posAt frontPos 1).1 (posAt frontPos 1).2 content.card3 "2a"
  ++ [Op.setFont Fonts.body 7,
      Op.setFillColor Colors.gray,
      Op.drawString (15 * mm) (10 * mm)
        ("KABUL " ++ content.info2edition ++ " | Page 1/2 | "
          ++ content.info2front ++ " | 63×88mm"),
      Op.showPage]
  ++ drawCardFront cfg sw (posAt backPos 0).1 (posAt backPos 0).2 content.card2 "1b"
  ++ drawCardFront cfg sw (posAt backPos 1).1 (posAt backPos 1).2 content.card4 "2b"
  ++ [Op.setFont Fonts.body 7,
      Op.setFillColor Colors.gray,
      Op.drawString (15 * mm) (10 * mm)
        ("KABUL " ++ content.info2edition ++ " | Page 2/2 | "
          ++ content.info2back ++ " | 63×88mm"),
      Op.drawRightString (PAGE_WIDTH - 15 * mm) (10 * mm) content.duplexHint]

/-- The x coordinate of the centred single title card
(`x = (PAGE_WIDTH - CARD_WIDTH) / 2`). -/
def titleCardX (cfg : Config) : ℚ := (PAGE_WIDTH - cfg.cardWidth) / 2

/-- The y coordinate of the centred single title card. -/
def titleCardY (cfg : Config) : ℚ := (PAGE_HEIGHT - cfg.cardHeight) / 2

/-- `generate_title_card`: cover face at the centred position, page
break, info+QR face at the same centred position. -/
def generateTitleCard (cfg : Config) (sw : StringWidth) (content : Content) :
    List Op :=
  let x := titleCardX cfg
  let y := titleCardY cfg
  drawTitleCard cfg x y content.titleCardTitle content.titleCardSubtitle
  ++ [Op.setFont Fonts.body 7,
      Op.setFillColor Colors.gray,
      Op.drawString (15 * mm) (10 * mm)
        ("KABUL Title Card | Page 1/2 | " ++ content.infoTitleFront ++ " | 63×88mm"),
      Op.showPage]
  ++ drawTitleCardBackWithMarks cfg x y content.aboutTitle content.gameDescription
       content.githubUrl
  ++ [Op.setFont Fonts.body 7,
      Op.setFillColor Colors.gray,
      Op.drawString (15 * mm) (10 * mm)
        ("KABUL Title Card | Page 2/2 | " ++ content.infoTitleBack ++ " | 63×88mm"),
      Op.drawRightString (PAGE_WIDTH - 15 * mm) (10 * mm) content.duplexHint]

/-- `main()` as far as document generation goes: the three documents it
emits, in order.  The source performs no validation of the
configuration constants before generating. -/
def mainDocs (cfg : Config) (sw : StringWidth) (content : Content) :
    List (List Op) :=
  [generate4cardEdition cfg sw content,
   generate2cardEdition cfg sw content,
   generateTitleCard cfg sw content]

/-! ### Pages and canvas state -/

/-- Is this operation the page boundary? -/
def isShowPage : Op → Bool
  | Op.showPage => true
  | _ => false

/-- Split an operation trace into its pages at `showPage` boundaries
(the canvas's final `save()` flushes the last page). -/
def splitPages : List Op → List (List Op)
  | [] => [[]]
  | op :: rest =>
    let r := splitPages rest
    if isShowPage op then [] :: r
    else
      match r with
      | [] => [[op]]
      | p :: ps => (op :: p) :: ps

/-- The mutable graphics state of a reportlab canvas, as far as the
source touches it. -/
structure GState where
  fill : Nat
  stroke : Nat
  font : String × ℚ
  lineWidth : ℚ
  clip : List (ℚ × ℚ × ℚ × ℚ)
deriving DecidableEq

/-- Graphics state plus the `saveState`/`restoreState` stack. -/
structure CanvasState where
  g : GState
  stack : List GState
deriving DecidableEq

/-- A fresh canvas: black fill and stroke, default font, no clip. -/
def canvasInit : CanvasState :=
  { g := { fill := 0, stroke := 0, font := ("Helvetica", 12), lineWidth := 1,
           clip := [] }
    stack := [] }

/-- Effect of one canvas operation on the graphics state. -/
def execOp (s : CanvasState) (op : Op) : CanvasState :=
  match op with
  | Op.saveState => ⟨s.g, s.g :: s.stack⟩
  | Op.restoreState =>
    match s.stack with
    | [] => s
    | g0 :: rest => ⟨g0, rest⟩
  | Op.setFillColor c => ⟨{ s.g with fill := c }, s.stack⟩
  | Op.setStrokeColor c => ⟨{ s.g with stroke := c }, s.stack⟩
  | Op.setLineWidth w => ⟨{ s.g with lineWidth := w }, s.stack⟩
  | Op.setFont n sz => ⟨{ s.g with font := (n, sz) }, s.stack⟩
  | Op.clipRect a b w h => ⟨{ s.g with clip := (a, b, w, h) :: s.g.clip }, s.stack⟩
  | _ => s

/-- Run a trace of canvas operations from a given state. -/
def runOps (s : CanvasState) (ops : List Op) : CanvasState := ops.foldl execOp s

/-! ### Trace observations -/

/-- The line segments drawn by a trace, as endpoint pairs. -/
def lineSegs (ops : List Op) : List ((ℚ × ℚ) × (ℚ × ℚ)) :=
  ops.filterMap fun op =>
    match op with
    | Op.line a b c d => some ((a, b), (c, d))
    | _ => none

/-- The clip rectangles installed by a trace. -/
def clipRects (ops : List Op) : List (ℚ × ℚ × ℚ × ℚ) :=
  ops.filterMap fun op =>
    match op with
    | Op.clipRect a b w h => some (a, b, w, h)
    | _ => none

/-- The left-aligned strings drawn by a trace, with the fill color
active at the draw and the x position: `(text, color, x)`. -/
def textDraws (fill : Nat) : List Op → List (String × Nat × ℚ)
  | [] => []
  | Op.setFillColor c :: rest => textDraws c rest
  | Op.drawString x _ s :: rest => (s, fill, x) :: textDraws fill rest
  | _ :: rest => textDraws fill rest

/-! ## Helper lemmas about traces -/

lemma nsp_cropMarks (cfg : Config) (x y w h : ℚ) :
    Op.showPage ∉ drawCropMarks cfg x y w h := by
  simp [drawCropMarks]

lemma nsp_frontBackground (cfg : Config) (x y : ℚ) :
    Op.showPage ∉ drawFrontBackground cfg x y := by
  simp [drawFrontBackground]

lemma nsp_title (cfg : Config) (x y : ℚ) (t n : String) :
    Op.showPage ∉ drawTitle cfg x y t n := by
  simp [drawTitle]

lemma nsp_labelOps (sw : StringWidth) (cL y : ℚ) (label : String) :
    Op.showPage ∉ labelOps sw cL y label := by
  unfold labelOps
  split_ifs <;> simp

lemma nsp_valueRowOps (sw : StringWidth) (cL cE cV y : ℚ) (row : ValueRow) :
    Op.showPage ∉ valueRowOps sw cL cE cV y row := by
  obtain ⟨l, v, a, hr⟩ := row
  cases a <;> simp [valueRowOps, nsp_labelOps]

lemma nsp_valuesLoop (sw : StringWidth) (cL cE cV : ℚ) (rows : List ValueRow) :
    ∀ y, Op.showPage ∉ valuesLoop sw cL cE cV y rows := by
  induction rows with
  | nil => intro y; simp [valuesLoop]
  | cons r rs ih => intro y; simp [valuesLoop, nsp_valueRowOps, ih]

lemma nsp_footerLoop (sw : StringWidth) (cL : ℚ) (fs : List (String × String)) :
    ∀ y, Op.showPage ∉ footerLoop sw cL y fs := by
  induction fs with
  | nil => intro y; simp [footerLoop]
  | cons f fs ih => intro y; simp [footerLoop, ih]

lemma nsp_valuesTable (cfg : Config) (sw : StringWidth) (x y : ℚ)
    (values : List ValueRow) (footers : List (String × String)) :
    Op.showPage ∉ drawValuesTable cfg sw x y values footers := by
  simp [drawValuesTable, nsp_valuesLoop, nsp_footerLoop]

lemma nsp_sectionLineOps (baseX y : ℚ) (line : String) :
    Op.showPage ∉ sectionLineOps baseX y line := by
  unfold sectionLineOps
  split_ifs <;> (dsimp only; split <;> simp)

lemma nsp_sectionLinesLoop (baseX : ℚ) (ls : List String) :
    ∀ y, Op.showPage ∉ sectionLinesLoop baseX y ls := by
  induction ls with
  | nil => intro y; simp [sectionLinesLoop]
  | cons l ls ih => intro y; simp [sectionLinesLoop, nsp_sectionLineOps, ih]

lemma nsp_sectionOps (baseX y : ℚ) (sec : String × List String) :
    Op.showPage ∉ sectionOps baseX y sec := by
  simp [sectionOps, nsp_sectionLinesLoop]

lemma nsp_sectionsLoop (baseX : ℚ) (secs : List (String × List String)) :
    ∀ y, Op.showPage ∉ sectionsLoop baseX y secs := by
  induction secs with
  | nil => intro y; simp [sectionsLoop]
  | cons s ss ih => intro y; simp [sectionsLoop, nsp_sectionOps, ih]

lemma nsp_cardFront (cfg : Config) (sw : StringWidth) (x y : ℚ) (card : CardData)
    (number : String) : Op.showPage ∉ drawCardFront cfg sw x y card number := by
  rcases card with ⟨t, b⟩
  cases b <;>
    simp [drawCardFront, nsp_frontBackground, nsp_title, nsp_valuesTable,
      drawSections, nsp_sectionsLoop, nsp_cropMarks]

lemma nsp_backBackground (cfg : Config) (x y : ℚ) (t s : String) :
    Op.showPage ∉ drawBackBackground cfg x y t s := by
  simp [drawBackBackground]

lemma nsp_cardBack (cfg : Config) (x y : ℚ) (t s : String) :
    Op.showPage ∉ drawCardBack cfg x y t s := by
  simp [drawCardBack, nsp_backBackground, nsp_cropMarks]

lemma nsp_descLoop (cx : ℚ) (ls : List String) :
    ∀ y, Op.showPage ∉ descLoop cx y ls := by
  induction ls with
  | nil => intro y; simp [descLoop]
  | cons l ls ih =>
    intro y
    by_cases h : l = "" <;> simp [descLoop, h, ih]

lemma nsp_titleCard (cfg : Config) (x y : ℚ) (t s : String) :
    Op.showPage ∉ drawTitleCard cfg x y t s := by
  simp [drawTitleCard, drawTitleCardBackground, nsp_cropMarks]

lemma nsp_titleCardBackWithMarks (cfg : Config) (x y : ℚ) (a : String)
    (d : List String) (u : String) :
    Op.showPage ∉ drawTitleCardBackWithMarks cfg x y a d u := by
  simp [drawTitleCardBackWithMarks, drawTitleCardBack, nsp_descLoop, nsp_cropMarks]

lemma isShowPage_false {op : Op} (h : ¬Op.showPage = op) : isShowPage op = false := by
  cases op <;> first | rfl | exact absurd rfl h

lemma splitPages_no_break (a : List Op) (h : Op.showPage ∉ a) :
    splitPages a = [a] := by
  induction a with
  | nil => rfl
  | cons op rest ih =>
    rw [List.mem_cons, not_or] at h
    simp [splitPages, isShowPage_false h.1, ih h.2]

lemma splitPages_break (a b : List Op) (h : Op.showPage ∉ a) :
    splitPages (a ++ Op.showPage :: b) = a :: splitPages b := by
  induction a with
  | nil => simp [splitPages, isShowPage]
  | cons op rest ih =>
    rw [List.mem_cons, not_or] at h
    simp [splitPages, isShowPage_false h.1, ih h.2]

lemma descLoop_ops (cx : ℚ) (ls : List String) :
    ∀ y op, op ∈ descLoop cx y ls → ∃ a b s, op = Op.drawCentredString a b s := by
  induction ls with
  | nil => intro y op h; simp [descLoop] at h
  | cons l ls ih =>
    intro y op h
    by_cases hl : l = ""
    · rw [descLoop, if_pos hl] at h
      exact ih _ _ h
    · rw [descLoop, if_neg hl, List.mem_cons] at h
      rcases h with h | h
      · exact ⟨_, _, _, h⟩
      · exact ih _ _ h

lemma clipRects_descLoop (cx y : ℚ) (ls : List String) :
    clipRects (descLoop cx y ls) = [] := by
  simp only [clipRects, List.filterMap_eq_nil_iff]
  intro op hop
  obtain ⟨a, b, s, rfl⟩ := descLoop_ops cx ls y op hop
  rfl

lemma lineSegs_descLoop (cx y : ℚ) (ls : List String) :
    lineSegs (descLoop cx y ls) = [] := by
  simp only [lineSegs, List.filterMap_eq_nil_iff]
  intro op hop
  obtain ⟨a, b, s, rfl⟩ := descLoop_ops cx ls y op hop
  rfl

lemma lineSegs_append (a b : List Op) :
    lineSegs (a ++ b) = lineSegs a ++ lineSegs b :=
  List.filterMap_append a b _

lemma clipRects_append (a b : List Op) :
    clipRects (a ++ b) = clipRects a ++ clipRects b :=
  List.filterMap_append a b _

lemma lineSegs_nil : lineSegs [] = [] := rfl

lemma clipRects_nil : clipRects [] = [] := rfl

lemma lineSegs_cons (op : Op) (rest : List Op) :
    lineSegs (op :: rest)
      = (match op with
         | Op.line a b c d => some ((a, b), (c, d))
         | _ => none).toList ++ lineSegs rest := by
  cases op <;> rfl

lemma clipRects_cons (op : Op) (rest : List Op) :
    clipRects (op :: rest)
      = (match op with
         | Op.clipRect a b w h => some (a, b, w, h)
         | _ => none).toList ++ clipRects rest := by
  cases op <;> rfl

/-! ### Geometry predicates for the crop-mark claim -/

/-- A point lies on the closed segment with endpoints `s.1` and `s.2`. -/
def onSeg (p : ℚ × ℚ) (s : (ℚ × ℚ) × (ℚ × ℚ)) : Prop :=
  ∃ t : ℚ, 0 ≤ t ∧ t ≤ 1
    ∧ p.1 = s.1.1 + t * (s.2.1 - s.1.1)
    ∧ p.2 = s.1.2 + t * (s.2.2 - s.1.2)

/-- The four trim lines of the card rectangle handed to
`draw_crop_marks`. -/
inductive TrimEdge
  | left
  | right
  | bottom
  | top

/-- Perpendicular distance from a trim line to a point. -/
def edgeDist (cfg : Config) (x y w h : ℚ) : TrimEdge → ℚ × ℚ → ℚ
  | TrimEdge.left, p => |p.1 - (x + cfg.bleed)|
  | TrimEdge.right, p => |p.1 - (x + w - cfg.bleed)|
  | TrimEdge.bottom, p => |p.2 - (y + cfg.bleed)|
  | TrimEdge.top, p => |p.2 - (y + h - cfg.bleed)|

/-- Membership in the closed trim rectangle. -/
def inTrim (cfg : Config) (x y w h : ℚ) (p : ℚ × ℚ) : Prop :=
  x + cfg.bleed ≤ p.1 ∧ p.1 ≤ x + w - cfg.bleed
  ∧ y + cfg.bleed ≤ p.2 ∧ p.2 ≤ y + h - cfg.bleed

lemma abs_eq_of_eq_neg {a b : ℚ} (h : a = -b) (hb : 0 ≤ b) : |a| = b := by
  rw [h, abs_neg, abs_of_nonneg hb]

lemma abs_eq_of_eq {a b : ℚ} (h : a = b) (hb : 0 ≤ b) : |a| = b := by
  rw [h, abs_of_nonneg hb]

lemma onSeg_bounds {p : ℚ × ℚ} {s : (ℚ × ℚ) × (ℚ × ℚ)} (h : onSeg p s) :
    (min s.1.1 s.2.1 ≤ p.1 ∧ p.1 ≤ max s.1.1 s.2.1)
    ∧ (min s.1.2 s.2.2 ≤ p.2 ∧ p.2 ≤ max s.1.2 s.2.2) := by
  obtain ⟨t, ht0, ht1, hx, hy⟩ := h
  have k : ∀ a b : ℚ, min a b ≤ a + t * (b - a) ∧ a + t * (b - a) ≤ max a b := by
    intro a b
    rcases le_total a b with hab | hab
    · rw [min_eq_left hab, max_eq_right hab]
      constructor <;> nlinarith
    · rw [min_eq_right hab, max_eq_left hab]
      constructor <;> nlinarith
  rcases k s.1.1 s.2.1 with ⟨k1, k2⟩
  rcases k s.1.2 s.2.2 with ⟨k3, k4⟩
  rw [hx, hy]
  exact ⟨⟨k1, k2⟩, k3, k4⟩

/-! ### Traces of the content renderers contain no line segments -/

lemma lineSegs_labelOps (sw : StringWidth) (cL y : ℚ) (label : String) :
    lineSegs (labelOps sw cL y label) = [] := by
  unfold labelOps
  split_ifs <;> rfl

lemma lineSegs_valueRowOps (sw : StringWidth) (cL cE cV y : ℚ) (row : ValueRow) :
    lineSegs (valueRowOps sw cL cE cV y row) = [] := by
  obtain ⟨l, v, a, hr⟩ := row
  cases a <;>
    simp [valueRowOps, lineSegs_append, lineSegs_labelOps, lineSegs_cons, lineSegs_nil]

lemma lineSegs_valuesLoop (sw : StringWidth) (cL cE cV : ℚ) (rows : List ValueRow) :
    ∀ y, lineSegs (valuesLoop sw cL cE cV y rows) = [] := by
  induction rows with
  | nil => intro y; rfl
  | cons r rs ih =>
    intro y
    simp [valuesLoop, lineSegs_append, lineSegs_valueRowOps, ih]

lemma lineSegs_footerLoop (sw : StringWidth) (cL : ℚ) (fs : List (String × String)) :
    ∀ y, lineSegs (footerLoop sw cL y fs) = [] := by
  induction fs with
  | nil => intro y; rfl
  | cons f fs ih =>
    intro y
    simp [footerLoop, lineSegs_append, lineSegs_cons, lineSegs_nil, ih]

lemma lineSegs_valuesTable (cfg : Config) (sw : StringWidth) (x y : ℚ)
    (values : List ValueRow) (footers : List (String × String)) :
    lineSegs (drawValuesTable cfg sw x y values footers) = [] := by
  simp [drawValuesTable, lineSegs_append, lineSegs_cons, lineSegs_valuesLoop,
    lineSegs_footerLoop]

lemma lineSegs_sectionLineOps (baseX y : ℚ) (line : String) :
    lineSegs (sectionLineOps baseX y line) = [] := by
  unfold sectionLineOps
  split_ifs <;> (dsimp only; split <;> rfl)

lemma lineSegs_sectionLinesLoop (baseX : ℚ) (ls : List String) :
    ∀ y, lineSegs (sectionLinesLoop baseX y ls) = [] := by
  induction ls with
  | nil => intro y; rfl
  | cons l ls ih =>
    intro y
    simp [sectionLinesLoop, lineSegs_append, lineSegs_sectionLineOps, ih]

lemma lineSegs_sectionsLoop (baseX : ℚ) (secs : List (String × List String)) :
    ∀ y, lineSegs (sectionsLoop baseX y secs) = [] := by
  induction secs with
  | nil => intro y; rfl
  | cons s ss ih =>
    intro y
    simp [sectionsLoop, sectionOps, lineSegs_append, lineSegs_cons, lineSegs_nil,
      lineSegs_sectionLinesLoop, ih]

/-! ## Theorems -/

/-- C1: in the 2×2 grid the mirrored back-page position at `[r][c]`
(index `2r+c` of the row-major list) equals the front position at
`[r][1-c]`, and in the 2-in-a-row grid the mirrored back position at
`i` equals the front position at `1-i` — for every configuration. -/
theorem c1_duplex_mirror :
    (∀ (cfg : Config) (r c : Fin 2),
      posAt (calculate4cardPositions cfg).2 (2 * r.val + c.val)
        = posAt (calculate4cardPositions cfg).1 (2 * r.val + (1 - c.val)))
    ∧ (∀ (cfg : Config) (i : Fin 2),
      posAt (calculate2cardPositions cfg).2 i.val
        = posAt (calculate2cardPositions cfg).1 (1 - i.val)) := by
  constructor
  · intro cfg r c
    fin_cases r <;> fin_cases c <;> rfl
  · intro cfg i
    fin_cases i <;> rfl

/-- C5, as stated, is false: the source never checks the geometry
constants.  A configuration with a negative card width still produces
all three documents instead of failing before anything is drawn. -/
def geomNonPositive (cfg : Config) : Prop :=
  cfg.cardWidth ≤ 0 ∨ cfg.cardHeight ≤ 0 ∨ cfg.bleed ≤ 0 ∨ cfg.cropLength ≤ 0
  ∨ cfg.cropOffset ≤ 0 ∨ cfg.cardSpacing ≤ 0 ∨ cfg.margin ≤ 0

/-- A configuration with a non-positive geometry constant. -/
def badConfig : Config := { defaultConfig with cardWidth := -(63 * mm) }

/-- C5 counterexample: with a non-positive card width the pipeline
does not fail before drawing — it still emits its three documents, so
no positivity check happens at configuration load. -/
theorem c5_counterexample :
    geomNonPositive badConfig ∧ mainDocs badConfig swZero deContent ≠ [] := by
  constructor
  · left
    show badConfig.cardWidth ≤ 0
    norm_num [badConfig, defaultConfig, mm]
  · simp [mainDocs]

/-- C5 amended: the source performs no validation of the geometry
constants — generation proceeds for every configuration, always
emitting the three documents — and in the shipped configuration every
geometry constant is a positive literal. -/
theorem c5_amended :
    (∀ (cfg : Config) (sw : StringWidth) (content : Content),
      (mainDocs cfg sw content).length = 3)
    ∧ (0 < defaultConfig.cardWidth ∧ 0 < defaultConfig.cardHeight
       ∧ 0 < defaultConfig.bleed ∧ 0 < defaultConfig.cropLength
       ∧ 0 < defaultConfig.cropOffset ∧ 0 < defaultConfig.cropLineWidth
       ∧ 0 < defaultConfig.cardSpacing ∧ 0 < defaultConfig.margin) := by
  refine ⟨fun cfg sw content => rfl, ?_⟩
  norm_num [defaultConfig, mm]

/-- C6: the pipeline is a pure function of the content records and the
measurement collaborator — two runs over equal inputs produce
identical operation traces for all three documents, hence identical
card positions, crop-mark endpoints, text positions and drawn
strings.  The embedding is total and reads no external state, matching
the absence of any randomness or I/O in the source's layout code. -/
theorem c6_determinism (cfg : Config) (sw1 sw2 : StringWidth)
    (c1 c2 : Content) (hsw : sw1 = sw2) (hc : c1 = c2) :
    mainDocs cfg sw1 c1 = mainDocs cfg sw2 c2 := by
  rw [hsw, hc]

/-- Witness for C6 at the shipped configuration and German content. -/
theorem c6_determinism_witness :
    mainDocs defaultConfig swLen deContent = mainDocs defaultConfig swLen deContent :=
  c6_determinism defaultConfig swLen swLen deContent deContent rfl rfl

/-- C2: every card is drawn with exactly 8 crop-mark segments (its
line operations are exactly those of `draw_crop_marks`, two per
corner, each parallel to one edge); each segment locates one trim
line: its nearest endpoint is at perpendicular distance exactly
`CROP_OFFSET` (which is positive, never 0) from that line and its far
endpoint at `CROP_OFFSET + CROP_LENGTH`; and no point of any segment
touches the trim rectangle. -/
theorem c2_crop_mark_geometry :
    (∀ x y w h : ℚ,
      (lineSegs (drawCropMarks defaultConfig x y w h)).length = 8
      ∧ 0 < defaultConfig.cropOffset
      ∧ ∀ s ∈ lineSegs (drawCropMarks defaultConfig x y w h),
          (s.1.2 = s.2.2 ∨ s.1.1 = s.2.1)
          ∧ (∃ e : TrimEdge,
              (edgeDist defaultConfig x y w h e s.1 = defaultConfig.cropOffset
                ∧ edgeDist defaultConfig x y w h e s.2
                    = defaultConfig.cropOffset + defaultConfig.cropLength)
              ∨ (edgeDist defaultConfig x y w h e s.2 = defaultConfig.cropOffset
                ∧ edgeDist defaultConfig x y w h e s.1
                    = defaultConfig.cropOffset + defaultConfig.cropLength))
          ∧ ∀ p : ℚ × ℚ, onSeg p s → ¬inTrim defaultConfig x y w h p)
    ∧ (∀ (cfg : Config) (sw : StringWidth) (x y : ℚ) (card : CardData) (n : String),
        lineSegs (drawCardFront cfg sw x y card n)
          = lineSegs (drawCropMarks cfg (x - cfg.bleed) (y - cfg.bleed)
              cfg.cardWidthBleed cfg.cardHeightBleed)) := by
  constructor
  · intro x y w h
    have hoff : (0 : ℚ) < defaultConfig.cropOffset := by norm_num [defaultConfig, mm]
    have hlen : (0 : ℚ) < defaultConfig.cropLength := by norm_num [defaultConfig, mm]
    refine ⟨rfl, hoff, ?_⟩
    intro s hs
    simp only [drawCropMarks, lineSegs_cons, lineSegs_nil, Option.toList,
      List.nil_append, List.append_nil, List.cons_append, List.mem_cons,
      List.not_mem_nil, or_false] at hs
    have escape : ∀ a b c bound : ℚ, a ≤ b → b < bound → c ≤ max a b → c < bound := by
      intro a b c bound hab hb hc
      have := max_lt (lt_of_le_of_lt hab hb) hb
      linarith
    have escape2 : ∀ a b c bound : ℚ, a ≤ b → bound < a → min a b ≤ c → bound < c := by
      intro a b c bound hab ha hc
      have := lt_min ha (lt_of_lt_of_le ha hab)
      linarith
    rcases hs with rfl | rfl | rfl | rfl | rfl | rfl | rfl | rfl
    -- top-left horizontal mark
    · refine ⟨Or.inl rfl, ⟨TrimEdge.left, Or.inr ⟨?_, ?_⟩⟩, ?_⟩
      · exact abs_eq_of_eq_neg (by ring) hoff.le
      · exact abs_eq_of_eq_neg (by ring) (by linarith)
      · intro p hp hin
        obtain ⟨⟨hx1, hx2⟩, hy1, hy2⟩ := onSeg_bounds hp
        unfold inTrim at hin
        dsimp only at hx1 hx2 hy1 hy2
        have := escape _ _ _ (x + defaultConfig.bleed) (by linarith) (by linarith) hx2
        linarith [hin.1]
    -- top-left vertical mark
    · refine ⟨Or.inr rfl, ⟨TrimEdge.top, Or.inl ⟨?_, ?_⟩⟩, ?_⟩
      · exact abs_eq_of_eq (by ring) hoff.le
      · exact abs_eq_of_eq (by ring) (by linarith)
      · intro p hp hin
        obtain ⟨⟨hx1, hx2⟩, hy1, hy2⟩ := onSeg_bounds hp
        unfold inTrim at hin
        dsimp only at hx1 hx2 hy1 hy2
        have := escape2 _ _ _ (y + h - defaultConfig.bleed) (by linarith) (by linarith) hy1
        linarith [hin.2.2.2]
    -- top-right horizontal mark
    · refine ⟨Or.inl rfl, ⟨TrimEdge.right, Or.inl ⟨?_, ?_⟩⟩, ?_⟩
      · exact abs_eq_of_eq (by ring) hoff.le
      · exact abs_eq_of_eq (by ring) (by linarith)
      · intro p hp hin
        obtain ⟨⟨hx1, hx2⟩, hy1, hy2⟩ := onSeg_bounds hp
        unfold inTrim at hin
        dsimp only at hx1 hx2 hy1 hy2
        have := escape2 _ _ _ (x + w - defaultConfig.bleed) (by linarith) (by linarith) hx1
        linarith [hin.2.1]
    -- top-right vertical mark
    · refine ⟨Or.inr rfl, ⟨TrimEdge.top, Or.inl ⟨?_, ?_⟩⟩, ?_⟩
      · exact abs_eq_of_eq (by ring) hoff.le
      · exact abs_eq_of_eq (by ring) (by linarith)
      · intro p hp hin
        obtain ⟨⟨hx1, hx2⟩, hy1, hy2⟩ := onSeg_bounds hp
        unfold inTrim at hin
        dsimp only at hx1 hx2 hy1 hy2
        have := escape2 _ _ _ (y + h - defaultConfig.bleed) (by linarith) (by linarith) hy1
        linarith [hin.2.2.2]
    -- bottom-left horizontal mark
    · refine ⟨Or.inl rfl, ⟨TrimEdge.left, Or.inr ⟨?_, ?_⟩⟩, ?_⟩
      · exact abs_eq_of_eq_neg (by ring) hoff.le
      · exact abs_eq_of_eq_neg (by ring) (by linarith)
      · intro p hp hin
        obtain ⟨⟨hx1, hx2⟩, hy1, hy2⟩ := onSeg_bounds hp
        unfold inTrim at hin
        dsimp only at hx1 hx2 hy1 hy2
        have := escape _ _ _ (x + defaultConfig.bleed) (by linarith) (by linarith) hx2
        linarith [hin.1]
    -- bottom-left vertical mark
    · refine ⟨Or.inr rfl, ⟨TrimEdge.bottom, Or.inr ⟨?_, ?_⟩⟩, ?_⟩
      · exact abs_eq_of_eq_neg (by ring) hoff.le
      · exact abs_eq_of_eq_neg (by ring) (by linarith)
      · intro p hp hin
        obtain ⟨⟨hx1, hx2⟩, hy1, hy2⟩ := onSeg_bounds hp
        unfold inTrim at hin
        dsimp only at hx1 hx2 hy1 hy2
        have := escape _ _ _ (y + defaultConfig.bleed) (by linarith) (by linarith) hy2
        linarith [hin.2.2.1]
    -- bottom-right horizontal mark
    · refine ⟨Or.inl rfl, ⟨TrimEdge.right, Or.inl ⟨?_, ?_⟩⟩, ?_⟩
      · exact abs_eq_of_eq (by ring) hoff.le
      · exact abs_eq_of_eq (by ring) (by linarith)
      · intro p hp hin
        obtain ⟨⟨hx1, hx2⟩, hy1, hy2⟩ := onSeg_bounds hp
        unfold inTrim at hin
        dsimp only at hx1 hx2 hy1 hy2
        have := escape2 _ _ _ (x + w - defaultConfig.bleed) (by linarith) (by linarith) hx1
        linarith [hin.2.1]
    -- bottom-right vertical mark
    · refine ⟨Or.inr rfl, ⟨TrimEdge.bottom, Or.inr ⟨?_, ?_⟩⟩, ?_⟩
      · exact abs_eq_of_eq_neg (by ring) hoff.le
      · exact abs_eq_of_eq_neg (by ring) (by linarith)
      · intro p hp hin
        obtain ⟨⟨hx1, hx2⟩, hy1, hy2⟩ := onSeg_bounds hp
        unfold inTrim at hin
        dsimp only at hx1 hx2 hy1 hy2
        have := escape _ _ _ (y + defaultConfig.bleed) (by linarith) (by linarith) hy2
        linarith [hin.2.2.1]
  · intro cfg sw x y card n
    rcases card with ⟨t, b⟩
    cases b <;>
      simp [drawCardFront, lineSegs_append, lineSegs_cons, lineSegs_nil,
        lineSegs_valuesTable, drawSections, lineSegs_sectionsLoop,
        drawFrontBackground, drawTitle]

/-- C3: the compact edition generator emits a 2-page document; page 1
is the front-card render of CardSpec 1 at the first front position and
of CardSpec 3 at the second, page 2 is the front-card render of
CardSpec 2 and CardSpec 4 at the back positions, and the back position
sequence is the front sequence with its two members swapped. -/
theorem c3_compact_edition (cfg : Config) (sw : StringWidth) (content : Content) :
    ∃ f0 f1 : ℚ × ℚ,
      (calculate2cardPositions cfg).1 = [f0, f1]
      ∧ (calculate2cardPositions cfg).2 = [f1, f0]
      ∧ splitPages (generate2cardEdition cfg sw content) =
        [drawCardFront cfg sw f0.1 f0.2 content.card1 "1a"
          ++ drawCardFront cfg sw f1.1 f1.2 content.card3 "2a"
          ++ [Op.setFont Fonts.body 7, Op.setFillColor Colors.gray,
              Op.drawString (15 * mm) (10 * mm)
                ("KABUL " ++ content.info2edition ++ " | Page 1/2 | "
                  ++ content.info2front ++ " | 63×88mm")],
         drawCardFront cfg sw f1.1 f1.2 content.card2 "1b"
          ++ drawCardFront cfg sw f0.1 f0.2 content.card4 "2b"
          ++ [Op.setFont Fonts.body 7, Op.setFillColor Colors.gray,
              Op.drawString (15 * mm) (10 * mm)
                ("KABUL " ++ content.info2edition ++ " | Page 2/2 | "
                  ++ content.info2back ++ " | 63×88mm"),
              Op.drawRightString (PAGE_WIDTH - 15 * mm) (10 * mm)
                content.duplexHint]] := by
  obtain ⟨f0, f1, hf, hb⟩ :
      ∃ f0 f1, (calculate2cardPositions cfg).1 = [f0, f1]
        ∧ (calculate2cardPositions cfg).2 = [f1, f0] := ⟨_, _, rfl, rfl⟩
  refine ⟨f0, f1, hf, hb, ?_⟩
  have key : generate2cardEdition cfg sw content
      = (drawCardFront cfg sw f0.1 f0.2 content.card1 "1a"
          ++ drawCardFront cfg sw f1.1 f1.2 content.card3 "2a"
          ++ [Op.setFont Fonts.body 7, Op.setFillColor Colors.gray,
              Op.drawString (15 * mm) (10 * mm)
                ("KABUL " ++ content.info2edition ++ " | Page 1/2 | "
                  ++ content.info2front ++ " | 63×88mm")])
        ++ Op.showPage ::
          (drawCardFront cfg sw f1.1 f1.2 content.card2 "1b"
            ++ drawCardFront cfg sw f0.1 f0.2 content.card4 "2b"
            ++ [Op.setFont Fonts.body 7, Op.setFillColor Colors.gray,
                Op.drawString (15 * mm) (10 * mm)
                  ("KABUL " ++ content.info2edition ++ " | Page 2/2 | "
                    ++ content.info2back ++ " | 63×88mm"),
                Op.drawRightString (PAGE_WIDTH - 15 * mm) (10 * mm)
                  content.duplexHint]) := by
    simp [generate2cardEdition, hf, hb, posAt]
  rw [key, splitPages_break, splitPages_no_break]
  · simp [nsp_cardFront]
  · simp [nsp_cardFront]

/-- C9: the title/info document has exactly two pages; the back face
is clipped to exactly the same bleed rectangle as the front face
(hence drawn at the same card position), the crop marks of both pages
coincide, and the centred x position is a fixed point of the
horizontal duplex mirror: `PAGE_WIDTH - cardWidth - x = x`. -/
theorem c9_title_card_alignment (cfg : Config) (sw : StringWidth) (content : Content) :
    ∃ p1 p2 : List Op,
      splitPages (generateTitleCard cfg sw content) = [p1, p2]
      ∧ clipRects p1 = [(titleCardX cfg - cfg.bleed, titleCardY cfg - cfg.bleed,
          cfg.cardWidthBleed, cfg.cardHeightBleed)]
      ∧ clipRects p2 = clipRects p1
      ∧ lineSegs p2 = lineSegs p1
      ∧ PAGE_WIDTH - cfg.cardWidth - titleCardX cfg = titleCardX cfg := by
  refine ⟨drawTitleCard cfg (titleCardX cfg) (titleCardY cfg) content.titleCardTitle
        content.titleCardSubtitle
      ++ [Op.setFont Fonts.body 7, Op.setFillColor Colors.gray,
          Op.drawString (15 * mm) (10 * mm)
            ("KABUL Title Card | Page 1/2 | " ++ content.infoTitleFront
              ++ " | 63×88mm")],
    drawTitleCardBackWithMarks cfg (titleCardX cfg) (titleCardY cfg)
        content.aboutTitle content.gameDescription content.githubUrl
      ++ [Op.setFont Fonts.body 7, Op.setFillColor Colors.gray,
          Op.drawString (15 * mm) (10 * mm)
            ("KABUL Title Card | Page 2/2 | " ++ content.infoTitleBack
              ++ " | 63×88mm"),
          Op.drawRightString (PAGE_WIDTH - 15 * mm) (10 * mm) content.duplexHint],
    ?_, ?_, ?_, ?_, ?_⟩
  · have key : generateTitleCard cfg sw content
        = (drawTitleCard cfg (titleCardX cfg) (titleCardY cfg) content.titleCardTitle
            content.titleCardSubtitle
          ++ [Op.setFont Fonts.body 7, Op.setFillColor Colors.gray,
              Op.drawString (15 * mm) (10 * mm)
                ("KABUL Title Card | Page 1/2 | " ++ content.infoTitleFront
                  ++ " | 63×88mm")])
          ++ Op.showPage ::
            (drawTitleCardBackWithMarks cfg (titleCardX cfg) (titleCardY cfg)
                content.aboutTitle content.gameDescription content.githubUrl
              ++ [Op.setFont Fonts.body 7, Op.setFillColor Colors.gray,
                  Op.drawString (15 * mm) (10 * mm)
                    ("KABUL Title Card | Page 2/2 | " ++ content.infoTitleBack
                      ++ " | 63×88mm"),
                  Op.drawRightString (PAGE_WIDTH - 15 * mm) (10 * mm)
                    content.duplexHint]) := by
      simp [generateTitleCard]
    rw [key, splitPages_break, splitPages_no_break]
    · simp [nsp_titleCardBackWithMarks]
    · simp [nsp_titleCard]
  · simp [drawTitleCard, drawTitleCardBackground, drawCropMarks, clipRects_append,
      clipRects_cons, clipRects_nil]
  · simp [drawTitleCard, drawTitleCardBackground, drawTitleCardBackWithMarks,
      drawTitleCardBack, drawCropMarks, clipRects_append, clipRects_cons,
      clipRects_nil, clipRects_descLoop]
  · simp [drawTitleCard, drawTitleCardBackground, drawTitleCardBackWithMarks,
      drawTitleCardBack, drawCropMarks, lineSegs_append, lineSegs_cons,
      lineSegs_nil, lineSegs_descLoop]
  · unfold titleCardX
    ring

/-! ### Canvas state evolution lemmas (for C4) -/

lemma runOps_cons (s : CanvasState) (op : Op) (l : List Op) :
    runOps s (op :: l) = runOps (execOp s op) l := rfl

lemma runOps_append (s : CanvasState) (a b : List Op) :
    runOps s (a ++ b) = runOps (runOps s a) b := by
  simp [runOps, List.foldl_append]

/-- The clipped background block of `draw_card_front` restores the
full canvas state: the clip and every fill set inside it are popped. -/
lemma run_clippedFrontBg (cfg : Config) (x y : ℚ) (s : CanvasState) :
    runOps s
      ([Op.saveState,
        Op.clipRect (x - cfg.bleed) (y - cfg.bleed) cfg.cardWidthBleed
          cfg.cardHeightBleed]
        ++ drawFrontBackground cfg x y ++ [Op.restoreState]) = s := rfl

/-- `draw_title` leaves the fill color at the accent color and the
font at the body font in number size — without any save/restore. -/
lemma run_title (cfg : Config) (x y : ℚ) (t n : String) (s : CanvasState) :
    runOps s (drawTitle cfg x y t n)
      = ⟨{ s.g with fill := Colors.accent, font := (Fonts.body, Fonts.numberSize) }, s.stack⟩ := rfl

/-- `draw_crop_marks` is fully scoped: it restores the whole state. -/
lemma run_cropMarks (cfg : Config) (x y w h : ℚ) (s : CanvasState) :
    runOps s (drawCropMarks cfg x y w h) = s := rfl

lemma run_valueRowOps (sw : StringWidth) (cL cE cV y : ℚ) (row : ValueRow)
    (s : CanvasState) :
    runOps s (valueRowOps sw cL cE cV y row)
      = ⟨{ s.g with fill := Colors.text }, s.stack⟩ := by
  obtain ⟨l, v, a, hr⟩ := row
  unfold valueRowOps labelOps
  cases a <;> split_ifs <;> rfl

lemma run_valuesLoop (sw : StringWidth) (cL cE cV : ℚ) (rows : List ValueRow) :
    ∀ (y : ℚ) (s : CanvasState),
      runOps s (valuesLoop sw cL cE cV y rows)
        = if rows.isEmpty then s else ⟨{ s.g with fill := Colors.text }, s.stack⟩ := by
  induction rows with
  | nil => intro y s; rfl
  | cons r rs ih =>
    intro y s
    rw [valuesLoop, runOps_append, run_valueRowOps, ih]
    cases rs <;> rfl

lemma run_footerLoop (sw : StringWidth) (cL : ℚ) (fs : List (String × String)) :
    ∀ (y : ℚ) (s : CanvasState),
      runOps s (footerLoop sw cL y fs)
        = if fs.isEmpty then s
          else ⟨{ s.g with fill := Colors.text, font := (Fonts.body, Fonts.bodySize) }, s.stack⟩ := by
  induction fs with
  | nil => intro y s; rfl
  | cons f fs ih =>
    intro y s
    rw [footerLoop, runOps_append, ih]
    cases fs <;> rfl

lemma run_valuesTable (cfg : Config) (sw : StringWidth) (x y : ℚ)
    (values : List ValueRow) (footers : List (String × String)) (s : CanvasState) :
    runOps s (drawValuesTable cfg sw x y values footers)
      = ⟨{ s.g with font := (Fonts.body, Fonts.bodySize), fill := if values.isEmpty && footers.isEmpty then s.g.fill else Colors.text }, s.stack⟩ := by
  unfold drawValuesTable
  dsimp only
  rw [runOps_append, runOps_cons, run_valuesLoop, run_footerLoop]
  cases values <;> cases footers <;> rfl

lemma run_sectionLineOps (baseX y : ℚ) (line : String) (s : CanvasState)
    (hfill : s.g.fill = Colors.text) :
    runOps s (sectionLineOps baseX y line) = s := by
  obtain ⟨⟨f, st, fo, lw, cl⟩, stk⟩ := s
  dsimp only at hfill
  subst hfill
  unfold sectionLineOps
  split_ifs <;> (dsimp only; split <;> rfl)

lemma run_sectionLinesLoop (baseX : ℚ) (ls : List String) :
    ∀ (y : ℚ) (s : CanvasState), s.g.fill = Colors.text →
      runOps s (sectionLinesLoop baseX y ls) = s := by
  induction ls with
  | nil => intro y s _; rfl
  | cons l ls ih =>
    intro y s hfill
    rw [sectionLinesLoop, runOps_append, run_sectionLineOps baseX y l s hfill,
      ih _ s hfill]

lemma run_sectionOps (baseX y : ℚ) (sec : String × List String) (s : CanvasState) :
    runOps s (sectionOps baseX y sec)
      = ⟨{ s.g with fill := Colors.text, font := (Fonts.body, Fonts.bodySize) }, s.stack⟩ := by
  unfold sectionOps
  rw [runOps_append]
  have h1 : runOps s
      [Op.setFont Fonts.heading Fonts.headingSize, Op.setFillColor Colors.heading,
       Op.drawString baseX y sec.1, Op.setFont Fonts.body Fonts.bodySize,
       Op.setFillColor Colors.text]
      = ⟨{ s.g with fill := Colors.text, font := (Fonts.body, Fonts.bodySize) }, s.stack⟩ := rfl
  rw [h1, run_sectionLinesLoop _ _ _ _ rfl]

lemma run_sectionsLoop (baseX : ℚ) (secs : List (String × List String)) :
    ∀ (y : ℚ) (s : CanvasState),
      runOps s (sectionsLoop baseX y secs)
        = if secs.isEmpty then s
          else ⟨{ s.g with fill := Colors.text, font := (Fonts.body, Fonts.bodySize) }, s.stack⟩ := by
  induction secs with
  | nil => intro y s; rfl
  | cons sec ss ih =>
    intro y s
    rw [sectionsLoop, runOps_append, run_sectionOps, ih]
    cases ss <;> rfl

/-- Does a card's content emit at least one drawing group?  (The only
cards of the repository all do.) -/
def cardNonempty (card : CardData) : Bool :=
  match card.block with
  | CardBlock.valuesTable v f => !v.isEmpty || !f.isEmpty
  | CardBlock.sections s => !s.isEmpty

/-- C4 counterexample: rendering a card does NOT restore the fill
color or the font to their pre-card values.  Starting from a fresh
canvas (black fill, Helvetica 12), rendering card 2 of the repository
leaves the fill at the body text color and the font at the body font:
`draw_title`, `draw_sections` and `draw_values_table` set color and
font without any `saveState`/`restoreState` scope. -/
theorem c4_counterexample :
    ¬((runOps canvasInit (drawCardFront defaultConfig swZero 0 0 deCard2 "2/4")).g.fill
        = canvasInit.g.fill
      ∧ (runOps canvasInit (drawCardFront defaultConfig swZero 0 0 deCard2 "2/4")).g.font
        = canvasInit.g.font) := by
  decide

/-- C4 amended: only the clip (and the crop-mark stroke settings) are
scoped by an unconditional push/pop — after any card render the clip
list, stroke color, line width and save-stack equal their pre-card
values.  Fill color and font are not restored: for every card with
nonempty content the canvas is left with the body font and the default
text fill color, regardless of the state the card started from, so no
state besides fill/font can leak and fill/font end at fixed values. -/
theorem c4_scoping_amended (s : CanvasState) (cfg : Config) (sw : StringWidth)
    (x y : ℚ) (card : CardData) (number : String) :
    (runOps s (drawCardFront cfg sw x y card number)).stack = s.stack
    ∧ (runOps s (drawCardFront cfg sw x y card number)).g.clip = s.g.clip
    ∧ (runOps s (drawCardFront cfg sw x y card number)).g.stroke = s.g.stroke
    ∧ (runOps s (drawCardFront cfg sw x y card number)).g.lineWidth = s.g.lineWidth
    ∧ (cardNonempty card = true →
        (runOps s (drawCardFront cfg sw x y card number)).g.fill = Colors.text
        ∧ (runOps s (drawCardFront cfg sw x y card number)).g.font
            = (Fonts.body, Fonts.bodySize)) := by
  rcases card with ⟨t, b⟩
  cases b with
  | valuesTable v f =>
    have hgrp : drawCardFront cfg sw x y ⟨t, CardBlock.valuesTable v f⟩ number
        = ([Op.saveState,
            Op.clipRect (x - cfg.bleed) (y - cfg.bleed) cfg.cardWidthBleed
              cfg.cardHeightBleed]
            ++ drawFrontBackground cfg x y ++ [Op.restoreState])
          ++ (drawTitle cfg x y t number
            ++ (drawValuesTable cfg sw x y v f
              ++ drawCropMarks cfg (x - cfg.bleed) (y - cfg.bleed)
                  cfg.cardWidthBleed cfg.cardHeightBleed)) := by
      simp [drawCardFront]
    rw [hgrp, runOps_append, run_clippedFrontBg, runOps_append, run_title,
      runOps_append, run_valuesTable, run_cropMarks]
    cases v with
    | nil =>
      cases f with
      | nil =>
        refine ⟨rfl, rfl, rfl, rfl, fun hne => ?_⟩
        simp [cardNonempty] at hne
      | cons a l => exact ⟨rfl, rfl, rfl, rfl, fun _ => ⟨rfl, rfl⟩⟩
    | cons a l => exact ⟨rfl, rfl, rfl, rfl, fun _ => ⟨rfl, rfl⟩⟩
  | sections ss =>
    have hgrp : drawCardFront cfg sw x y ⟨t, CardBlock.sections ss⟩ number
        = ([Op.saveState,
            Op.clipRect (x - cfg.bleed) (y - cfg.bleed) cfg.cardWidthBleed
              cfg.cardHeightBleed]
            ++ drawFrontBackground cfg x y ++ [Op.restoreState])
          ++ (drawTitle cfg x y t number
            ++ (sectionsLoop (x + cfg.margin + 1 * mm) (y + cfg.cardHeight - 21 * mm)
                  ss
              ++ drawCropMarks cfg (x - cfg.bleed) (y - cfg.bleed)
                  cfg.cardWidthBleed cfg.cardHeightBleed)) := by
      simp [drawCardFront, drawSections]
    rw [hgrp, runOps_append, run_clippedFrontBg, runOps_append, run_title,
      runOps_append, run_sectionsLoop, run_cropMarks]
    cases ss with
    | nil =>
      refine ⟨rfl, rfl, rfl, rfl, fun hne => ?_⟩
      simp [cardNonempty] at hne
    | cons sec rest => exact ⟨rfl, rfl, rfl, rfl, fun _ => ⟨rfl, rfl⟩⟩

/-- Witness for the amended C4 at a concrete canvas state and card. -/
theorem c4_scoping_amended_witness :
    cardNonempty deCard2 = true
    ∧ ((runOps canvasInit (drawCardFront defaultConfig swZero 0 0 deCard2 "2/4")).g.fill
        = Colors.text
      ∧ (runOps canvasInit (drawCardFront defaultConfig swZero 0 0 deCard2 "2/4")).g.font
        = (Fonts.body, Fonts.bodySize)) :=
  ⟨by decide,
   (c4_scoping_amended canvasInit defaultConfig swZero 0 0 deCard2 "2/4").2.2.2.2
     (by decide)⟩

/-! ### The sectioned layout as the claim describes it (C7) -/

/-- Remove only leading whitespace (the continuation marker of the
claim's wording, "the marker stripped"). -/
def dropLeadingWs (s : String) : String :=
  String.mk (s.data.dropWhile Char.isWhitespace)

/-- The per-line rendering exactly as C7 words it: on a 3-space line
the fixed indent is applied and only the (leading-whitespace) marker
is stripped.  The source instead calls Python `strip()`, which also
removes trailing whitespace. -/
def claimC7LineOps (baseX y : ℚ) (line : String) : List Op :=
  let indent : ℚ := if pyStartsWith "   " line then 5 / 2 * mm else 0
  let l := if pyStartsWith "   " line then dropLeadingWs line else line
  if pyStartsWith "→" l then
    [Op.setFillColor Colors.accent,
     Op.drawString (baseX + indent) y "→",
     Op.setFillColor Colors.text,
     Op.drawString (baseX + indent + 3 * mm) y (dropChars 2 l)]
  else
    [Op.drawString (baseX + indent) y l]

/-- The per-line rendering following the amended claim: lines starting
with the 3-space marker get the fixed `2.5*mm` indent and are stripped
of leading AND trailing whitespace; a leading arrow is then drawn
alone in accent color at the indent, the remainder (arrow plus one
character removed) in default color at indent plus `3*mm`; all other
lines are drawn whole in the default color at the indent. -/
def specLineOps (baseX y : ℚ) (line : String) : List Op :=
  if pyStartsWith "   " line then
    if pyStartsWith "→" (pyStrip line) then
      [Op.setFillColor Colors.accent,
       Op.drawString (baseX + 5 / 2 * mm) y "→",
       Op.setFillColor Colors.text,
       Op.drawString (baseX + 5 / 2 * mm + 3 * mm) y (dropChars 2 (pyStrip line))]
    else
      [Op.drawString (baseX + 5 / 2 * mm) y (pyStrip line)]
  else
    if pyStartsWith "→" line then
      [Op.setFillColor Colors.accent,
       Op.drawString baseX y "→",
       Op.setFillColor Colors.text,
       Op.drawString (baseX + 3 * mm) y (dropChars 2 line)]
    else
      [Op.drawString baseX y line]

/-- Cursor advance of one whole section: fixed heading advance
`3.3*mm`, fixed `2.9*mm` for each line, fixed inter-section gap
`1.2*mm`. -/
def secAdvance (sec : String × List String) : ℚ :=
  33 / 10 * mm + 29 / 10 * mm * sec.2.length + 6 / 5 * mm

/-- One section as described by the claim: heading in heading style,
then line `j` rendered at the closed-form cursor position
`top - 3.3*mm - 2.9*mm*j`. -/
def specSectionOps (baseX top : ℚ) (sec : String × List String) : List Op :=
  [Op.setFont Fonts.heading Fonts.headingSize,
   Op.setFillColor Colors.heading,
   Op.drawString baseX top sec.1,
   Op.setFont Fonts.body Fonts.bodySize,
   Op.setFillColor Colors.text]
  ++ ((List.range sec.2.length).map fun j : ℕ =>
      specLineOps baseX (top - 33 / 10 * mm - 29 / 10 * mm * (j : ℚ))
        (sec.2.getD j "")).flatten

/-- The whole sectioned layout with closed-form cursor positions:
section `i` starts at `top` minus the sum of the advances of the
sections before it. -/
def specSections (baseX top : ℚ) (secs : List (String × List String)) : List Op :=
  ((List.range secs.length).map fun i =>
    specSectionOps baseX (top - ((secs.take i).map secAdvance).sum)
      (secs.getD i ("", []))).flatten

lemma flatten_range_succ {α : Type} (n : ℕ) (f : ℕ → List α) :
    ((List.range (n + 1)).map f).flatten
      = f 0 ++ ((List.range n).map fun j => f (j + 1)).flatten := by
  rw [List.range_succ_eq_map, List.map_cons, List.flatten_cons, List.map_map]
  rfl

lemma lineOps_eq_spec (baseX y : ℚ) (line : String) :
    sectionLineOps baseX y line = specLineOps baseX y line := by
  unfold sectionLineOps specLineOps
  split_ifs <;> dsimp only <;> (try split_ifs) <;> simp

lemma linesLoop_eq_spec (baseX : ℚ) (ls : List String) :
    ∀ y, sectionLinesLoop baseX y ls
      = ((List.range ls.length).map fun j : ℕ =>
          specLineOps baseX (y - 29 / 10 * mm * (j : ℚ)) (ls.getD j "")).flatten := by
  induction ls with
  | nil => intro y; rfl
  | cons l ls ih =>
    intro y
    rw [sectionLinesLoop, lineOps_eq_spec, ih (y - 29 / 10 * mm), List.length_cons,
      flatten_range_succ]
    congr 1
    · simp
    · congr 1
      apply List.map_congr_left
      intro j hj
      simp only [List.getD_cons_succ]
      congr 1
      push_cast
      ring

lemma sectionOps_eq_spec (baseX y : ℚ) (sec : String × List String) :
    sectionOps baseX y sec = specSectionOps baseX y sec := by
  unfold sectionOps specSectionOps
  rw [linesLoop_eq_spec]

lemma sectionsLoop_eq_aux (baseX : ℚ) (secs : List (String × List String)) :
    ∀ y, sectionsLoop baseX y secs
      = ((List.range secs.length).map fun i : ℕ =>
          specSectionOps baseX (y - ((secs.take i).map secAdvance).sum)
            (secs.getD i ("", []))).flatten := by
  induction secs with
  | nil => intro y; rfl
  | cons sec ss ih =>
    intro y
    rw [sectionsLoop, sectionOps_eq_spec, ih (sectionEndY y sec), List.length_cons,
      flatten_range_succ]
    congr 1
    · rw [show (((sec :: ss).take 0).map secAdvance).sum = (0 : ℚ) from rfl,
        sub_zero]
      rfl
    · congr 1
      apply List.map_congr_left
      intro i hi
      rw [List.getD_cons_succ, List.take_succ_cons, List.map_cons, List.sum_cons]
      congr 1
      unfold sectionEndY secAdvance
      ring

lemma sectionsLoop_eq_spec (baseX : ℚ) (secs : List (String × List String)) :
    ∀ y, sectionsLoop baseX y secs = specSections baseX y secs :=
  sectionsLoop_eq_aux baseX secs

/-- C7 counterexample: on the line `"   a "` (3-space marker, then
`a`, then a trailing space) the source's renderer draws `"a"` — Python
`strip()` removes the trailing space too — while the claim's
"marker stripped" rendering draws `"a "`. -/
theorem c7_counterexample :
    sectionLineOps 0 0 "   a " ≠ claimC7LineOps 0 0 "   a "
    ∧ sectionLineOps 0 0 "   a " = [Op.drawString (0 + 5 / 2 * mm) 0 "a"]
    ∧ claimC7LineOps 0 0 "   a " = [Op.drawString (0 + 5 / 2 * mm) 0 "a "] := by
  refine ⟨?_, rfl, rfl⟩
  intro h
  rw [show sectionLineOps 0 0 "   a " = [Op.drawString (0 + 5 / 2 * mm) 0 "a"] from
      rfl,
    show claimC7LineOps 0 0 "   a " = [Op.drawString (0 + 5 / 2 * mm) 0 "a "] from
      rfl] at h
  simp at h

/-- C7 (amended): the sectioned layout renders exactly as the claim
describes, with one correction — a 3-space continuation line is
stripped of leading and trailing whitespace (Python `strip()`), not
just of its marker.  For every section list: section `i`'s heading is
drawn at `top` minus the sum of the fixed advances of the earlier
sections (3.3mm heading advance + 2.9mm per line + 1.2mm gap each),
and its line `j` — indented and stripped if marked, arrow drawn alone
in accent color with the remainder at indent+3mm in default color,
otherwise drawn whole in default color — at exactly 3.3mm + 2.9mm*j
below the section top. -/
theorem c7_sectioned_layout_amended (cfg : Config) (x y : ℚ)
    (secs : List (String × List String)) :
    drawSections cfg x y secs
      = specSections (x + cfg.margin + 1 * mm) (y + cfg.cardHeight - 21 * mm) secs := by
  unfold drawSections
  exact sectionsLoop_eq_spec _ _ _

/-! ### Glyph-pair handling in the values table (C8, C10) -/

/-- What is drawn before the first occurrence of the needle, followed
by the needle itself, is a prefix of the original string. -/
lemma takeBefore_append_prefix (n : List Char) :
    ∀ s : List Char, hasSub n s = true → (takeBefore n s ++ n) <+: s := by
  intro s
  induction s with
  | nil =>
    intro h
    rw [hasSub, List.isEmpty_iff] at h
    simp [takeBefore, h]
  | cons c t ih =>
    intro h
    rw [takeBefore]
    by_cases hp : n.isPrefixOf (c :: t) = true
    · rw [if_pos hp, List.nil_append]
      exact List.isPrefixOf_iff_prefix.mp hp
    · rw [if_neg hp]
      have h2 : hasSub n t = true := by
        rw [hasSub, Bool.or_eq_true] at h
        rcases h with h | h
        · exact absurd h hp
        · exact h
      rw [List.cons_append]
      exact List.cons_prefix_cons.mpr ⟨rfl, ih h2⟩

/-- C8: for a values-table row whose label embeds a glyph pair, the
drawn text runs are exactly: the substring before the pair in the
default text color at the label column; the pair in its mapped color
(`♠♣` black, `♥♦` red) at the label column plus the measured width of
that prefix; then the aligned `=`, the value, and the optional action
line.  (The `♥♦` branch runs when no `♠♣` is present; a label with
both pairs is the subject of C10.) -/
theorem c8_glyph_recoloring (sw : StringWidth) (f0 : Nat)
    (colLabel colEquals colValue y : ℚ) (label value : String)
    (action : Option String) (hasRed : Bool) :
    (containsSub "♠♣" label = true →
      textDraws f0
          (valueRowOps sw colLabel colEquals colValue y (label, value, action, hasRed))
        = [(takeBeforeStr "♠♣" label, Colors.text, colLabel),
           ("♠♣", Colors.black,
            colLabel + sw (takeBeforeStr "♠♣" label) Fonts.body Fonts.bodySize),
           ("=", Colors.text, colEquals), (value, Colors.text, colValue)]
          ++ (match action with
              | some a => [("→ " ++ a, Colors.heading, colValue)]
              | none => []))
    ∧ (containsSub "♥♦" label = true → containsSub "♠♣" label = false →
      textDraws f0
          (valueRowOps sw colLabel colEquals colValue y (label, value, action, hasRed))
        = [(takeBeforeStr "♥♦" label, Colors.text, colLabel),
           ("♥♦", Colors.red,
            colLabel + sw (takeBeforeStr "♥♦" label) Fonts.body Fonts.bodySize),
           ("=", Colors.text, colEquals), (value, Colors.text, colValue)]
          ++ (match action with
              | some a => [("→ " ++ a, Colors.heading, colValue)]
              | none => [])) := by
  constructor
  · intro h
    unfold valueRowOps labelOps
    cases action <;> simp [h, textDraws]
  · intro h hns
    unfold valueRowOps labelOps
    cases action <;> simp [h, hns, textDraws]

/-- Witness for C8 at the repository's own row `König ♠♣`. -/
theorem c8_glyph_recoloring_witness :
    containsSub "♠♣" "König ♠♣" = true
    ∧ textDraws 0 (valueRowOps swLen 1 2 3 0
        ("König ♠♣", "10 Punkte", some "2× Ansehen & Tauschen?", false))
      = [(takeBeforeStr "♠♣" "König ♠♣", Colors.text, 1),
         ("♠♣", Colors.black,
          1 + swLen (takeBeforeStr "♠♣" "König ♠♣") Fonts.body Fonts.bodySize),
         ("=", Colors.text, 2), ("10 Punkte", Colors.text, 3),
         ("→ " ++ "2× Ansehen & Tauschen?", Colors.heading, 3)] :=
  ⟨rfl,
   (c8_glyph_recoloring swLen 0 1 2 3 0 "König ♠♣" "10 Punkte"
      (some "2× Ansehen & Tauschen?") false).1 rfl⟩

/-- C10 counterexample: in the label `"♥♦♠♣"` — which contains both
pairs — the `♠♣` branch runs and `♥♦` IS drawn: it lies before the
first `♠♣`, so it appears inside the default-colored prefix run.  The
claim's parenthetical "♥♦ in such a label is never recolored or
drawn" is therefore false in its "never drawn" half. -/
theorem c10_counterexample :
    containsSub "♠♣" "♥♦♠♣" = true
    ∧ containsSub "♥♦" "♥♦♠♣" = true
    ∧ ("♥♦", Colors.text, (0 : ℚ)) ∈ textDraws 0 (labelOps swZero 0 0 "♥♦♠♣") := by
  refine ⟨rfl, rfl, ?_⟩
  rw [show textDraws 0 (labelOps swZero 0 0 "♥♦♠♣")
      = [("♥♦", Colors.text, (0 : ℚ)),
         ("♠♣", Colors.black,
          (0 + swZero "♥♦" Fonts.body Fonts.bodySize : ℚ))] from rfl]
  exact List.mem_cons_self _ _

/-- C10 (amended): for a label containing a glyph pair, the label's
drawn text runs are exactly the substring strictly before the first
occurrence of the dispatched pair and the pair itself — characters
after the pair are never rendered (prefix + pair form a prefix of the
label); with both pairs present only the `♠♣` branch runs and nothing
is drawn in the red color, though a `♥♦` occurring before the first
`♠♣` still appears inside the default-colored prefix. -/
theorem c10_label_truncation_amended (sw : StringWidth) (f0 : Nat)
    (colLabel y : ℚ) (label : String)
    (h : containsSub "♠♣" label = true ∨ containsSub "♥♦" label = true) :
    ((textDraws f0 (labelOps sw colLabel y label)).map (fun d => d.1)
      = [takeBeforeStr (if containsSub "♠♣" label then "♠♣" else "♥♦") label,
         if containsSub "♠♣" label then "♠♣" else "♥♦"])
    ∧ ((takeBeforeStr (if containsSub "♠♣" label then "♠♣" else "♥♦") label).data
        ++ (if containsSub "♠♣" label then "♠♣" else "♥♦").data) <+: label.data
    ∧ (containsSub "♠♣" label = true →
        ∀ d ∈ textDraws f0 (labelOps sw colLabel y label), d.2.1 ≠ Colors.red) := by
  by_cases hs : containsSub "♠♣" label = true
  · refine ⟨?_, ?_, ?_⟩
    · unfold labelOps
      simp [hs, textDraws]
    · simp only [hs, if_true]
      exact takeBefore_append_prefix _ _ hs
    · intro _ d hd
      unfold labelOps at hd
      simp only [hs, if_true, textDraws, List.mem_cons, List.not_mem_nil,
        or_false] at hd
      rcases hd with rfl | rfl <;> (dsimp only; decide)
  · have hr : containsSub "♥♦" label = true := h.resolve_left hs
    refine ⟨?_, ?_, ?_⟩
    · unfold labelOps
      simp [hs, hr, textDraws]
    · simp only [hs, if_false]
      exact takeBefore_append_prefix _ _ hr
    · intro hs2
      exact absurd hs2 hs

/-- Witness for the amended C10 at the repository's row label
`König ♥♦`. -/
theorem c10_label_truncation_amended_witness :
    (containsSub "♠♣" "König ♥♦" = true ∨ containsSub "♥♦" "König ♥♦" = true)
    ∧ (textDraws 0 (labelOps swLen 0 0 "König ♥♦")).map (fun d => d.1)
      = [takeBeforeStr (if containsSub "♠♣" "König ♥♦" then "♠♣" else "♥♦")
           "König ♥♦",
         if containsSub "♠♣" "König ♥♦" then "♠♣" else "♥♦"] :=
  ⟨Or.inr rfl,
   (c10_label_truncation_amended swLen 0 0 0 "König ♥♦" (Or.inr rfl)).1⟩

end Kabul
